import Mathlib

set_option maxRecDepth 8000

/-!
Shallow embedding of the core of the gbemu Game Boy emulator
(src/memory.cpp, src/cpu.cpp, src/cartridge.cpp), translated from the C++
source.  Bytes are Nat values kept below 256 by truncating (mod 256) exactly
where the C++ converts to uint8_t; 16-bit quantities wrap mod 65536 where the
C++ uses uint16_t arithmetic.  The memory bus owns a bank controller; the
repository's fallback controller (direct_memory_bank) maps reads and writes
1:1 onto the cartridge bytes, which is what the embedding uses for the
controller-delegated regions.
-/

-- ===== memory.hpp constants =====

def boot_rom_end : Nat := 0x0100
def rom_bank_0_end : Nat := 0x4000
def rom_bank_n_end : Nat := 0x8000
def vram_end : Nat := 0xA000
def ext_ram_end : Nat := 0xC000
def wram_0_end : Nat := 0xD000
def wram_n_end : Nat := 0xE000
def mirror_0_end : Nat := 0xF000
def mirror_n_end : Nat := 0xFE00
def oam_end : Nat := 0xFEA0
def oam_invalid_end : Nat := 0xFF00
def io_registers_end : Nat := 0xFF80
def stack_end : Nat := 0xFFFF

def divider_addr : Nat := 0xFF04
def timer_control_addr : Nat := 0xFF07
def interrupt_flag_addr : Nat := 0xFF0F
def lcd_control_addr : Nat := 0xFF40
def interrupt_enable_addr : Nat := 0xFFFF

/-- The 256-byte boot ROM embedded in memory.hpp (bootstrap_rom). -/
def bootstrap_rom_bytes : List Nat := [
  0x31, 0xfe, 0xff, 0xaf, 0x21, 0xff, 0x9f, 0x32,
  0xcb, 0x7c, 0x20, 0xfb, 0x21, 0x26, 0xff, 0x0e,
  0x11, 0x3e, 0x80, 0x32, 0xe2, 0x0c, 0x3e, 0xf3,
  0xe2, 0x32, 0x3e, 0x77, 0x77, 0x3e, 0xfc, 0xe0,
  0x47, 0x11, 0x04, 0x01, 0x21, 0x10, 0x80, 0x1a,
  0xcd, 0x95, 0x00, 0xcd, 0x96, 0x00, 0x13, 0x7b,
  0xfe, 0x34, 0x20, 0xf3, 0x11, 0xd8, 0x00, 0x06,
  0x08, 0x1a, 0x13, 0x22, 0x23, 0x05, 0x20, 0xf9,
  0x3e, 0x19, 0xea, 0x10, 0x99, 0x21, 0x2f, 0x99,
  0x0e, 0x0c, 0x3d, 0x28, 0x08, 0x32, 0x0d, 0x20,
  0xf9, 0x2e, 0x0f, 0x18, 0xf3, 0x67, 0x3e, 0x64,
  0x57, 0xe0, 0x42, 0x3e, 0x91, 0xe0, 0x40, 0x04,
  0x1e, 0x02, 0x0e, 0x0c, 0xf0, 0x44, 0xfe, 0x90,
  0x20, 0xfa, 0x0d, 0x20, 0xf7, 0x1d, 0x20, 0xf2,
  0x0e, 0x13, 0x24, 0x7c, 0x1e, 0x83, 0xfe, 0x62,
  0x28, 0x06, 0x1e, 0xc1, 0xfe, 0x64, 0x20, 0x06,
  0x7b, 0xe2, 0x0c, 0x3e, 0x87, 0xe2, 0xf0, 0x42,
  0x90, 0xe0, 0x42, 0x15, 0x20, 0xd2, 0x05, 0x20,
  0x4f, 0x16, 0x20, 0x18, 0xcb, 0x4f, 0x06, 0x04,
  0xc5, 0xcb, 0x11, 0x17, 0xc1, 0xcb, 0x11, 0x17,
  0x05, 0x20, 0xf5, 0x22, 0x23, 0x22, 0x23, 0xc9,
  0xce, 0xed, 0x66, 0x66, 0xcc, 0x0d, 0x00, 0x0b,
  0x03, 0x73, 0x00, 0x83, 0x00, 0x0c, 0x00, 0x0d,
  0x00, 0x08, 0x11, 0x1f, 0x88, 0x89, 0x00, 0x0e,
  0xdc, 0xcc, 0x6e, 0xe6, 0xdd, 0xdd, 0xd9, 0x99,
  0xbb, 0xbb, 0x67, 0x63, 0x6e, 0x0e, 0xec, 0xcc,
  0xdd, 0xdc, 0x99, 0x9f, 0xbb, 0xb9, 0x33, 0x3e,
  0x3c, 0x42, 0xb9, 0xa5, 0xb9, 0xa5, 0x42, 0x3c,
  0x21, 0x04, 0x01, 0x11, 0xa8, 0x00, 0x1a, 0x13,
  0xbe, 0x20, 0xfe, 0x23, 0x7d, 0xfe, 0x34, 0x20,
  0xf5, 0x06, 0x19, 0x78, 0x86, 0x23, 0x05, 0x20,
  0xfb, 0x86, 0x20, 0xfe, 0x3e, 0x01, 0xe0, 0x50]

def bootstrap_rom (i : Nat) : Nat := bootstrap_rom_bytes.getD i 0

/-- Memory bus state (struct memory): the private fixed-size arrays modelled
as functions from (region-local) index to byte, plus the cartridge bytes,
which the direct_memory_bank bank controller reads and writes 1:1. -/
structure Memory where
  cart_data : Nat → Nat
  vram : Nat → Nat
  wram_bank_0 : Nat → Nat
  wram_bank_n : Nat → Nat
  io_registers : Nat → Nat
  stack : Nat → Nat
  interrupt_enable_register : Nat

/-- Pointwise update of an array modelled as a function. -/
def updArr (f : Nat → Nat) (a v : Nat) : Nat → Nat :=
  fun i => if i = a then v else f i

/-- memory::read (memory.cpp lines 20-43). -/
def Memory.read (m : Memory) (addr : Nat) : Nat :=
  if addr < rom_bank_0_end then
    -- 0x50 == disable_boot_rom register
    if addr < boot_rom_end ∧ m.io_registers 0x50 = 0 then bootstrap_rom addr
    else m.cart_data addr
  else if addr < rom_bank_n_end then m.cart_data addr
  else if addr < vram_end then m.vram (addr - rom_bank_n_end)
  else if addr < ext_ram_end then m.cart_data addr
  else if addr < wram_0_end then m.wram_bank_0 (addr - ext_ram_end)
  else if addr < wram_n_end then m.wram_bank_n (addr - wram_0_end)
  else if addr < mirror_0_end then m.wram_bank_0 (addr - wram_n_end)
  else if addr < mirror_n_end then m.wram_bank_n (addr - mirror_0_end)
  else if addr < oam_end then 0
  else if addr < oam_invalid_end then 0
  else if addr < io_registers_end then m.io_registers (addr - oam_invalid_end)
  else if addr < stack_end then m.stack (addr - io_registers_end)
  else m.interrupt_enable_register

/-- memory::read16 (memory.cpp lines 45-48):
(read(addr + 1) << 8) | read(addr), with uint16 address wrap-around. -/
def Memory.read16 (m : Memory) (addr : Nat) : Nat :=
  (m.read ((addr + 1) % 65536)) <<< 8 ||| m.read addr

/-- memory::write (memory.cpp lines 50-119).  The val parameter is a
uint8_t, so the stored byte is val mod 256. -/
def Memory.write (m : Memory) (addr val : Nat) : Memory :=
  let val := val % 256
  if addr < rom_bank_n_end then { m with cart_data := updArr m.cart_data addr val }
  else if addr < vram_end then { m with vram := updArr m.vram (addr - rom_bank_n_end) val }
  else if addr < ext_ram_end then { m with cart_data := updArr m.cart_data addr val }
  else if addr < wram_0_end then
    { m with wram_bank_0 := updArr m.wram_bank_0 (addr - ext_ram_end) val }
  else if addr < wram_n_end then
    { m with wram_bank_n := updArr m.wram_bank_n (addr - wram_0_end) val }
  else if addr < mirror_0_end then
    { m with wram_bank_0 := updArr m.wram_bank_0 (addr - wram_n_end) val }
  else if addr < mirror_n_end then
    { m with wram_bank_n := updArr m.wram_bank_n (addr - mirror_0_end) val }
  else if addr < oam_end then m
  else if addr < oam_invalid_end then m
  else if addr < io_registers_end then
    { m with io_registers := updArr m.io_registers (addr - oam_invalid_end) val }
  else if addr < stack_end then { m with stack := updArr m.stack (addr - io_registers_end) val }
  else { m with interrupt_enable_register := val }

/-- memory::write16 (memory.cpp lines 121-125).  Note: the source writes
both bytes to the same address addr. -/
def Memory.write16 (m : Memory) (addr val : Nat) : Memory :=
  (m.write addr ((val &&& 0x00ff) >>> 0)).write addr ((val &&& 0xff00) >>> 8)

/-- A memory bus whose RAM regions and registers all read back zero. -/
def mem0 : Memory :=
  { cart_data := fun _ => 0
    vram := fun _ => 0
    wram_bank_0 := fun _ => 0
    wram_bank_n := fun _ => 0
    io_registers := fun _ => 0
    stack := fun _ => 0
    interrupt_enable_register := 0 }

-- ===== cpu.hpp / cpu.cpp =====

/-- Interrupt service routine addresses (cpu.cpp lines 11-15). -/
def vblank_handler : Nat := 0x40
def lcd_stat_handler : Nat := 0x48
def timer_handler : Nat := 0x50
def serial_handler : Nat := 0x58
def joypad_handler : Nat := 0x60

/-- cpu::action, the pipeline entries of post-execution actions. -/
inductive GbAction
  | execute
  | halt
  | disable_interrupts
  | enable_interrupts
deriving DecidableEq, Repr

/-- cpu::condition for conditional control flow. -/
inductive Cond
  | NZ
  | Z
  | NC
  | C
deriving DecidableEq, Repr

/-- The seven 8-bit registers that appear as instruction operands (F is
only reachable through the flag accessors and the AF pair). -/
inductive R8
  | A
  | B
  | C
  | D
  | E
  | H
  | L
deriving DecidableEq, Repr

/-- The 16-bit register pairs (plus SP), the union views of cpu.hpp. -/
inductive R16
  | AF
  | BC
  | DE
  | HL
  | SP
deriving DecidableEq, Repr

/-- CPU state: memory bus, action pipeline, flags/registers, SP/PC
(cpu.hpp lines 239-281).  Single-byte registers are kept below 256,
16-bit quantities below 65536, by truncating exactly where the C++
types truncate. -/
structure Cpu where
  mem : Memory
  pipeline : List GbAction
  running : Bool
  interrupts_enabled : Bool
  cycles : Nat
  a : Nat
  f : Nat
  b : Nat
  c : Nat
  d : Nat
  e : Nat
  h : Nat
  l : Nat
  sp : Nat
  pc : Nat

-- flag accessors (cpu.hpp lines 284-302); the C++ clears a bit with
-- F &= ~mask on a uint8_t, i.e. an AND with the 8-bit complement.

def Cpu.zero (st : Cpu) : Bool := st.f &&& 0x80 != 0
def Cpu.set_zero (st : Cpu) : Cpu := { st with f := st.f ||| 0x80 }
def Cpu.reset_zero (st : Cpu) : Cpu := { st with f := st.f &&& 0x7f }
def Cpu.upd_zero (st : Cpu) (b : Bool) : Cpu :=
  { st with f := if b then st.f ||| 0x80 else st.f &&& 0x7f }

def Cpu.sub (st : Cpu) : Bool := st.f &&& 0x40 != 0
def Cpu.set_sub (st : Cpu) : Cpu := { st with f := st.f ||| 0x40 }
def Cpu.reset_sub (st : Cpu) : Cpu := { st with f := st.f &&& 0xbf }
def Cpu.upd_sub (st : Cpu) (b : Bool) : Cpu :=
  { st with f := if b then st.f ||| 0x40 else st.f &&& 0xbf }

def Cpu.half_carry (st : Cpu) : Bool := st.f &&& 0x20 != 0
def Cpu.set_half_carry (st : Cpu) : Cpu := { st with f := st.f ||| 0x20 }
def Cpu.reset_half_carry (st : Cpu) : Cpu := { st with f := st.f &&& 0xdf }
def Cpu.upd_half_carry (st : Cpu) (b : Bool) : Cpu :=
  { st with f := if b then st.f ||| 0x20 else st.f &&& 0xdf }

def Cpu.carry (st : Cpu) : Bool := st.f &&& 0x10 != 0
def Cpu.set_carry (st : Cpu) : Cpu := { st with f := st.f ||| 0x10 }
def Cpu.reset_carry (st : Cpu) : Cpu := { st with f := st.f &&& 0xef }
def Cpu.upd_carry (st : Cpu) (b : Bool) : Cpu :=
  { st with f := if b then st.f ||| 0x10 else st.f &&& 0xef }

/-- Read an 8-bit operand register. -/
def Cpu.get8 (st : Cpu) : R8 → Nat
  | .A => st.a
  | .B => st.b
  | .C => st.c
  | .D => st.d
  | .E => st.e
  | .H => st.h
  | .L => st.l

/-- Write an 8-bit operand register (uint8_t assignment truncates). -/
def Cpu.set8 (st : Cpu) (r : R8) (v : Nat) : Cpu :=
  match r with
  | .A => { st with a := v % 256 }
  | .B => { st with b := v % 256 }
  | .C => { st with c := v % 256 }
  | .D => { st with d := v % 256 }
  | .E => { st with e := v % 256 }
  | .H => { st with h := v % 256 }
  | .L => { st with l := v % 256 }

/-- Read a 16-bit pair: the named upper byte occupies the high 8 bits
(the unions of cpu.hpp on a little-endian host). -/
def Cpu.get16 (st : Cpu) : R16 → Nat
  | .AF => st.a * 256 + st.f
  | .BC => st.b * 256 + st.c
  | .DE => st.d * 256 + st.e
  | .HL => st.h * 256 + st.l
  | .SP => st.sp

/-- Write a 16-bit pair (uint16_t assignment truncates; the two bytes of
the union are overwritten). -/
def Cpu.set16 (st : Cpu) (r : R16) (v : Nat) : Cpu :=
  match r with
  | .AF => { st with a := v / 256 % 256, f := v % 256 }
  | .BC => { st with b := v / 256 % 256, c := v % 256 }
  | .DE => { st with d := v / 256 % 256, e := v % 256 }
  | .HL => { st with h := v / 256 % 256, l := v % 256 }
  | .SP => { st with sp := v % 65536 }

/-- cpu::fetch (cpu.cpp lines 80-83): mem->read(pc++). -/
def Cpu.fetch (st : Cpu) : Cpu × Nat :=
  ({ st with pc := (st.pc + 1) % 65536 }, st.mem.read st.pc)

/-- cpu::fetch16 (cpu.cpp lines 85-90): read16(pc), pc += 2. -/
def Cpu.fetch16 (st : Cpu) : Cpu × Nat :=
  ({ st with pc := (st.pc + 2) % 65536 }, st.mem.read16 st.pc)

-- flag predicates (cpu.hpp lines 88-113); the templates instantiate with
-- maxv = 0xFF for uint8_t operands and maxv = 0xFFFF for uint16_t, and the
-- half-carry mask is maxv >> 8 as in the source.

def check_add_half_carry (maxv a b : Nat) : Bool :=
  let mask := maxv >>> 8
  decide (((a &&& mask) + (b &&& mask)) > mask)

def check_add_carry (maxv a b : Nat) : Bool :=
  decide (a + b > maxv)

def check_sub_half_carry (maxv a b : Nat) : Bool :=
  let mask := maxv >>> 8
  decide ((((a &&& mask) : Int) - ((b &&& mask) : Int)) < 0)

def check_sub_carry (a b : Nat) : Bool :=
  decide (((a : Int) - (b : Int)) < 0)

-- ===== instruction implementations (cpu.cpp lines 706-1582) =====
-- Each returns the new state and the cycle count, mirroring the C++
-- member functions.  The C++ overload sets are split by suffix:
-- _r takes a register operand, _a a bus address, _n fetches an operand,
-- _v takes a plain value.

/-- cpu::op_nop. -/
def Cpu.op_nop (st : Cpu) : Cpu × Nat := (st, 4)

/-- cpu::op_ld_n(uint8_t&): reg = fetch(). -/
def Cpu.op_ld_n_r (st : Cpu) (r : R8) : Cpu × Nat :=
  let (st, v) := st.fetch
  (st.set8 r v, 8)

/-- cpu::op_ld_n(uint16_t): mem->write(addr, fetch()). -/
def Cpu.op_ld_n_a (st : Cpu) (addr : Nat) : Cpu × Nat :=
  let (st, v) := st.fetch
  ({ st with mem := st.mem.write addr v }, 12)

/-- cpu::op_ld(uint8_t&, uint8_t): dst = val. -/
def Cpu.op_ld_rv (st : Cpu) (r : R8) (val : Nat) : Cpu × Nat :=
  (st.set8 r val, 4)

/-- cpu::op_ld(uint8_t&, uint16_t): dst = mem->read(addr). -/
def Cpu.op_ld_ra (st : Cpu) (r : R8) (addr : Nat) : Cpu × Nat :=
  (st.set8 r (st.mem.read addr), 8)

/-- cpu::op_ld(uint16_t, uint8_t): mem->write(addr, val). -/
def Cpu.op_ld_av (st : Cpu) (addr val : Nat) : Cpu × Nat :=
  ({ st with mem := st.mem.write addr val }, 8)

/-- cpu::op_ld_nn(uint8_t&): dst = mem->read(fetch16()). -/
def Cpu.op_ld_nn_r (st : Cpu) (r : R8) : Cpu × Nat :=
  let (st, addr) := st.fetch16
  (st.set8 r (st.mem.read addr), 16)

/-- cpu::op_ld_nn(uint8_t): mem->write(fetch16(), val). -/
def Cpu.op_ld_nn_v (st : Cpu) (val : Nat) : Cpu × Nat :=
  let (st, addr) := st.fetch16
  ({ st with mem := st.mem.write addr val }, 16)

/-- cpu::op_ldd_A: A = mem->read(HL); HL--. -/
def Cpu.op_ldd_A (st : Cpu) : Cpu × Nat :=
  let st := st.set8 .A (st.mem.read (st.get16 .HL))
  (st.set16 .HL (st.get16 .HL + 65535), 8)

/-- cpu::op_ldd_HL: mem->write(HL, A); HL--. -/
def Cpu.op_ldd_HL (st : Cpu) : Cpu × Nat :=
  let st := { st with mem := st.mem.write (st.get16 .HL) st.a }
  (st.set16 .HL (st.get16 .HL + 65535), 8)

/-- cpu::op_ldi_A: A = mem->read(HL); HL++. -/
def Cpu.op_ldi_A (st : Cpu) : Cpu × Nat :=
  let st := st.set8 .A (st.mem.read (st.get16 .HL))
  (st.set16 .HL (st.get16 .HL + 1), 8)

/-- cpu::op_ldi_HL: mem->write(HL, A); HL++. -/
def Cpu.op_ldi_HL (st : Cpu) : Cpu × Nat :=
  let st := { st with mem := st.mem.write (st.get16 .HL) st.a }
  (st.set16 .HL (st.get16 .HL + 1), 8)

/-- cpu::op_ldh_A: mem->write(0xff00 + fetch(), A). -/
def Cpu.op_ldh_A (st : Cpu) : Cpu × Nat :=
  let (st, v) := st.fetch
  ({ st with mem := st.mem.write (0xff00 + v) st.a }, 12)

/-- cpu::op_ldh_n: A = mem->read(0xff00 + fetch()). -/
def Cpu.op_ldh_n (st : Cpu) : Cpu × Nat :=
  let (st, v) := st.fetch
  (st.set8 .A (st.mem.read (0xff00 + v)), 12)

/-- cpu::op_ld16(uint16_t&): reg = fetch16(). -/
def Cpu.op_ld16_r (st : Cpu) (r : R16) : Cpu × Nat :=
  let (st, v) := st.fetch16
  (st.set16 r v, 12)

/-- cpu::op_ld16(uint16_t&, uint16_t): reg = val. -/
def Cpu.op_ld16_rv (st : Cpu) (r : R16) (val : Nat) : Cpu × Nat :=
  (st.set16 r val, 8)

/-- cpu::op_ld16_HL (opcode 0xf8): HL = mem->read(sp + int8(fetch())) —
the source loads a single byte — with add/sub flag updates on the low
byte of SP. -/
def Cpu.op_ld16_HL (st : Cpu) : Cpu × Nat :=
  let (st, immd) := st.fetch
  if immd < 128 then
    let st := st.set16 .HL (st.mem.read ((st.sp + immd) % 65536))
    let st := st.reset_zero
    let st := st.reset_sub
    let st := st.upd_half_carry (check_add_half_carry 0xffff st.sp immd)
    let st := st.upd_carry (check_add_carry 0xffff st.sp immd)
    (st, 12)
  else
    let neg := 256 - immd
    let st := st.set16 .HL (st.mem.read ((st.sp + 65536 - neg) % 65536))
    let st := st.reset_zero
    let st := st.reset_sub
    let st := st.upd_half_carry (check_sub_half_carry 0xffff st.sp neg)
    let st := st.upd_carry (check_sub_carry st.sp neg)
    (st, 12)

/-- cpu::op_ld16_nn (opcode 0x08): mem->write(fetch16(), sp) — a single
byte write; the uint8_t parameter truncates SP to its low byte. -/
def Cpu.op_ld16_nn (st : Cpu) : Cpu × Nat :=
  let (st, addr) := st.fetch16
  ({ st with mem := st.mem.write addr st.sp }, 20)

/-- cpu::op_push (cpu.cpp lines 830-835): mem->write(sp, val) — a single
byte write of the low byte of val through the uint8_t parameter, at the
un-decremented SP — then sp -= 2. -/
def Cpu.op_push (st : Cpu) (val : Nat) : Cpu × Nat :=
  let st := { st with mem := st.mem.write st.sp val }
  ({ st with sp := (st.sp + 65534) % 65536 }, 16)

/-- The body of cpu::op_pop on a value destination: read16(sp), sp += 2. -/
def Cpu.pop16 (st : Cpu) : Cpu × Nat :=
  let v := st.mem.read16 st.sp
  ({ st with sp := (st.sp + 2) % 65536 }, v)

/-- cpu::op_pop (cpu.cpp lines 837-842): reg = mem->read16(sp); sp += 2.
No masking is applied to the popped value, for AF included. -/
def Cpu.op_pop (st : Cpu) (r : R16) : Cpu × Nat :=
  let (st, v) := st.pop16
  (st.set16 r v, 12)

/-- cpu::op_add(uint8_t&, uint8_t) (cpu.cpp lines 844-855): res is an int
(no truncation in the Z test); flags via the check_add predicates with the
uint8_t instantiation (maxv = 0xFF); reg = res truncates. -/
def Cpu.op_add8 (st : Cpu) (r : R8) (val : Nat) : Cpu × Nat :=
  let reg := st.get8 r
  let res := reg + val
  let st := st.upd_zero (res == 0)
  let st := st.reset_sub
  let st := st.upd_half_carry (check_add_half_carry 0xff reg val)
  let st := st.upd_carry (check_add_carry 0xff reg val)
  (st.set8 r res, 4)

/-- cpu::op_add(uint8_t&, uint16_t): op_add(reg, mem->read(addr)). -/
def Cpu.op_add8_a (st : Cpu) (r : R8) (addr : Nat) : Cpu × Nat :=
  let (st, _) := st.op_add8 r (st.mem.read addr)
  (st, 8)

/-- cpu::op_add_n: op_add(reg, fetch()). -/
def Cpu.op_add8_n (st : Cpu) (r : R8) : Cpu × Nat :=
  let (st, v) := st.fetch
  let (st, _) := st.op_add8 r v
  (st, 8)

/-- cpu::op_adc (cpu.cpp lines 869-882): the carry bit joins the result
but not the flag computations. -/
def Cpu.op_adc8 (st : Cpu) (r : R8) (val : Nat) : Cpu × Nat :=
  let reg := st.get8 r
  let res := reg + val
  let res := if st.carry then res + 1 else res
  let st := st.upd_zero (res == 0)
  let st := st.reset_sub
  let st := st.upd_half_carry (check_add_half_carry 0xff reg val)
  let st := st.upd_carry (check_add_carry 0xff reg val)
  (st.set8 r res, 4)

/-- cpu::op_adc(uint8_t&, uint16_t). -/
def Cpu.op_adc8_a (st : Cpu) (r : R8) (addr : Nat) : Cpu × Nat :=
  let (st, _) := st.op_adc8 r (st.mem.read addr)
  (st, 8)

/-- cpu::op_adc_n. -/
def Cpu.op_adc8_n (st : Cpu) (r : R8) : Cpu × Nat :=
  let (st, v) := st.fetch
  let (st, _) := st.op_adc8 r v
  (st, 8)

/-- cpu::op_sub (cpu.cpp lines 896-907): res = reg - val as int; the flag
computations reuse the ADD predicates; reg = res truncates mod 256. -/
def Cpu.op_sub8 (st : Cpu) (r : R8) (val : Nat) : Cpu × Nat :=
  let reg := st.get8 r
  let res : Int := (reg : Int) - (val : Int)
  let st := st.upd_zero (res == 0)
  let st := st.set_sub
  let st := st.upd_half_carry (check_add_half_carry 0xff reg val)
  let st := st.upd_carry (check_add_carry 0xff reg val)
  (st.set8 r (res % 256).toNat, 4)

/-- cpu::op_sub(uint8_t&, uint16_t). -/
def Cpu.op_sub8_a (st : Cpu) (r : R8) (addr : Nat) : Cpu × Nat :=
  let (st, _) := st.op_sub8 r (st.mem.read addr)
  (st, 8)

/-- cpu::op_sub_n. -/
def Cpu.op_sub8_n (st : Cpu) (r : R8) : Cpu × Nat :=
  let (st, v) := st.fetch
  let (st, _) := st.op_sub8 r v
  (st, 8)

/-- cpu::op_sbc (cpu.cpp lines 921-934): res = reg - val, then res += 1
when the carry flag is set; ADD predicates for the flags. -/
def Cpu.op_sbc8 (st : Cpu) (r : R8) (val : Nat) : Cpu × Nat :=
  let reg := st.get8 r
  let res : Int := (reg : Int) - (val : Int)
  let res := if st.carry then res + 1 else res
  let st := st.upd_zero (res == 0)
  let st := st.set_sub
  let st := st.upd_half_carry (check_add_half_carry 0xff reg val)
  let st := st.upd_carry (check_add_carry 0xff reg val)
  (st.set8 r (res % 256).toNat, 4)

/-- cpu::op_sbc(uint8_t&, uint16_t): the source calls op_sub, not op_sbc. -/
def Cpu.op_sbc8_a (st : Cpu) (r : R8) (addr : Nat) : Cpu × Nat :=
  let (st, _) := st.op_sub8 r (st.mem.read addr)
  (st, 8)

/-- cpu::op_sbc_n: the source calls op_sub, not op_sbc. -/
def Cpu.op_sbc8_n (st : Cpu) (r : R8) : Cpu × Nat :=
  let (st, v) := st.fetch
  let (st, _) := st.op_sub8 r v
  (st, 8)

/-- cpu::op_and. -/
def Cpu.op_and8 (st : Cpu) (r : R8) (val : Nat) : Cpu × Nat :=
  let st := st.set8 r (st.get8 r &&& val)
  let st := st.upd_zero (st.get8 r == 0)
  let st := st.reset_sub
  let st := st.set_half_carry
  let st := st.reset_carry
  (st, 4)

/-- cpu::op_and(uint8_t&, uint16_t). -/
def Cpu.op_and8_a (st : Cpu) (r : R8) (addr : Nat) : Cpu × Nat :=
  let (st, _) := st.op_and8 r (st.mem.read addr)
  (st, 8)

/-- cpu::op_and_n. -/
def Cpu.op_and8_n (st : Cpu) (r : R8) : Cpu × Nat :=
  let (st, v) := st.fetch
  let (st, _) := st.op_and8 r v
  (st, 8)

/-- cpu::op_or. -/
def Cpu.op_or8 (st : Cpu) (r : R8) (val : Nat) : Cpu × Nat :=
  let st := st.set8 r (st.get8 r ||| val)
  let st := st.upd_zero (st.get8 r == 0)
  let st := st.reset_sub
  let st := st.reset_half_carry
  let st := st.reset_carry
  (st, 4)

/-- cpu::op_or(uint8_t&, uint16_t). -/
def Cpu.op_or8_a (st : Cpu) (r : R8) (addr : Nat) : Cpu × Nat :=
  let (st, _) := st.op_or8 r (st.mem.read addr)
  (st, 8)

/-- cpu::op_or_n. -/
def Cpu.op_or8_n (st : Cpu) (r : R8) : Cpu × Nat :=
  let (st, v) := st.fetch
  let (st, _) := st.op_or8 r v
  (st, 8)

/-- cpu::op_xor. -/
def Cpu.op_xor8 (st : Cpu) (r : R8) (val : Nat) : Cpu × Nat :=
  let st := st.set8 r (st.get8 r ^^^ val)
  let st := st.upd_zero (st.get8 r == 0)
  let st := st.reset_sub
  let st := st.reset_half_carry
  let st := st.reset_carry
  (st, 4)

/-- cpu::op_xor(uint8_t&, uint16_t). -/
def Cpu.op_xor8_a (st : Cpu) (r : R8) (addr : Nat) : Cpu × Nat :=
  let (st, _) := st.op_xor8 r (st.mem.read addr)
  (st, 8)

/-- cpu::op_xor_n. -/
def Cpu.op_xor8_n (st : Cpu) (r : R8) : Cpu × Nat :=
  let (st, v) := st.fetch
  let (st, _) := st.op_xor8 r v
  (st, 8)

/-- cpu::op_cp (cpu.cpp lines 1020-1028): flags only, with the SUB
predicates. -/
def Cpu.op_cp8 (st : Cpu) (r : R8) (val : Nat) : Cpu × Nat :=
  let reg := st.get8 r
  let st := st.upd_zero (((reg : Int) - (val : Int)) == 0)
  let st := st.set_sub
  let st := st.upd_half_carry (check_sub_half_carry 0xff reg val)
  let st := st.upd_carry (check_sub_carry reg val)
  (st, 4)

/-- cpu::op_cp(uint8_t&, uint16_t). -/
def Cpu.op_cp8_a (st : Cpu) (r : R8) (addr : Nat) : Cpu × Nat :=
  let (st, _) := st.op_cp8 r (st.mem.read addr)
  (st, 8)

/-- cpu::op_cp_n. -/
def Cpu.op_cp8_n (st : Cpu) (r : R8) : Cpu × Nat :=
  let (st, v) := st.fetch
  let (st, _) := st.op_cp8 r v
  (st, 8)

/-- cpu::op_inc(uint8_t&) on a value: res = reg + 1 as int (so the Z test
never fires), flags, and the incremented value is produced. -/
def Cpu.op_inc_core (st : Cpu) (reg : Nat) : Cpu × Nat :=
  let res := reg + 1
  let st := st.upd_zero (res == 0)
  let st := st.reset_sub
  let st := st.upd_half_carry (check_add_half_carry 0xff reg 1)
  -- carry not affected
  (st, res % 256)

/-- cpu::op_inc(uint8_t&). -/
def Cpu.op_inc_r (st : Cpu) (r : R8) : Cpu × Nat :=
  let (st, v) := st.op_inc_core (st.get8 r)
  (st.set8 r v, 4)

/-- cpu::op_inc(uint16_t): read, op_inc on the local, write back. -/
def Cpu.op_inc_a (st : Cpu) (addr : Nat) : Cpu × Nat :=
  let (st, v) := st.op_inc_core (st.mem.read addr)
  ({ st with mem := st.mem.write addr v }, 12)

/-- cpu::op_dec(uint8_t&) (cpu.cpp lines 1063-1073): flags only — the
source never assigns res back to reg, so the operand is unchanged. -/
def Cpu.op_dec_core (st : Cpu) (reg : Nat) : Cpu × Nat :=
  let res : Int := (reg : Int) - 1
  let st := st.upd_zero (res == 0)
  let st := st.set_sub
  let st := st.upd_half_carry (check_sub_half_carry 0xff reg 1)
  -- carry not affected
  (st, reg)

/-- cpu::op_dec(uint8_t&). -/
def Cpu.op_dec_r (st : Cpu) (r : R8) : Cpu × Nat :=
  let (st, _) := st.op_dec_core (st.get8 r)
  (st, 4)

/-- cpu::op_dec(uint16_t): read, op_dec on the local (which leaves it
unchanged), write the unchanged byte back. -/
def Cpu.op_dec_a (st : Cpu) (addr : Nat) : Cpu × Nat :=
  let (st, v) := st.op_dec_core (st.mem.read addr)
  ({ st with mem := st.mem.write addr v }, 12)

/-- cpu::op_add(uint16_t&, uint16_t) (cpu.cpp lines 1083-1092): the
uint16_t instantiation of the predicates (maxv = 0xFFFF, mask = 0xFF). -/
def Cpu.op_add16 (st : Cpu) (r : R16) (val : Nat) : Cpu × Nat :=
  let reg := st.get16 r
  -- zero not affected
  let st := st.reset_sub
  let st := st.upd_half_carry (check_add_half_carry 0xffff reg val)
  let st := st.upd_carry (check_add_carry 0xffff reg val)
  (st.set16 r (reg + val), 8)

/-- cpu::op_add_sp (opcode 0xe8). -/
def Cpu.op_add_sp (st : Cpu) : Cpu × Nat :=
  let st := st.reset_zero
  let st := st.reset_sub
  let (st, val) := st.fetch
  if val < 128 then
    let st := st.upd_half_carry (check_add_half_carry 0xffff st.sp val)
    let st := st.upd_carry (check_add_carry 0xffff st.sp val)
    ({ st with sp := (st.sp + val) % 65536 }, 16)
  else
    let neg := 256 - val
    let st := st.upd_half_carry (check_sub_half_carry 0xffff st.sp neg)
    let st := st.upd_carry (check_sub_carry st.sp neg)
    ({ st with sp := (st.sp + 65536 - neg) % 65536 }, 16)

/-- cpu::op_inc16. -/
def Cpu.op_inc16 (st : Cpu) (r : R16) : Cpu × Nat :=
  (st.set16 r (st.get16 r + 1), 8)

/-- cpu::op_dec16. -/
def Cpu.op_dec16 (st : Cpu) (r : R16) : Cpu × Nat :=
  (st.set16 r (st.get16 r + 65535), 8)

/-- cpu::op_swap(uint8_t&) (cpu.cpp lines 1130-1140).  The C++ expression
is reg = (reg & 0x0f << 4) | (reg & 0xf0 >> 4); the shifts bind tighter
than &, so the masks are 0xf0 and 0x0f and no nibble moves. -/
def Cpu.op_swap_r (st : Cpu) (r : R8) : Cpu × Nat :=
  let reg := st.get8 r
  let reg := (reg &&& (0x0f <<< 4)) ||| (reg &&& (0xf0 >>> 4))
  let st := st.set8 r reg
  let st := st.upd_zero (reg == 0)
  let st := st.reset_sub
  let st := st.reset_half_carry
  let st := st.reset_carry
  (st, 4)

/-- cpu::op_swap(uint16_t) (cpu.cpp lines 1142-1154): here the masks are
parenthesised, so the nibbles really are exchanged. -/
def Cpu.op_swap_a (st : Cpu) (addr : Nat) : Cpu × Nat :=
  let val := st.mem.read addr
  let val := ((val &&& 0x0f) <<< 4) ||| ((val &&& 0xf0) >>> 4)
  let st := { st with mem := st.mem.write addr val }
  let st := st.upd_zero (val == 0)
  let st := st.reset_sub
  let st := st.reset_half_carry
  let st := st.reset_carry
  (st, 12)

/-- cpu::op_daa (cpu.cpp lines 1156-1189); uint8_t arithmetic on A wraps
mod 256. -/
def Cpu.op_daa (st : Cpu) : Cpu × Nat :=
  let st :=
    if st.sub then
      let st :=
        if st.carry then
          let st := { st with a := (st.a + 256 - 0x60) % 256 }
          st.set_carry
        else st
      if st.half_carry then { st with a := (st.a + 256 - 0x06) % 256 } else st
    else
      let st :=
        if st.carry || decide (st.a > 0x99) then
          let st := { st with a := (st.a + 0x60) % 256 }
          st.set_carry
        else st
      if st.half_carry || decide ((st.a &&& 0x0f) > 9) then
        { st with a := (st.a + 0x06) % 256 }
      else st
  let st := st.upd_zero (st.a == 0)
  -- sub flag not affected
  let st := st.reset_half_carry
  -- carry flag is set (or unchanged) above
  (st, 4)

/-- cpu::op_cpl: A = ~A (8-bit complement). -/
def Cpu.op_cpl (st : Cpu) : Cpu × Nat :=
  let st := { st with a := st.a ^^^ 0xff }
  let st := st.set_sub
  let st := st.set_half_carry
  (st, 4)

/-- cpu::op_ccf. -/
def Cpu.op_ccf (st : Cpu) : Cpu × Nat :=
  let st := st.reset_sub
  let st := st.reset_half_carry
  let st := st.upd_carry (!st.carry)
  (st, 4)

/-- cpu::op_scf. -/
def Cpu.op_scf (st : Cpu) : Cpu × Nat :=
  let st := st.reset_sub
  let st := st.reset_half_carry
  let st := st.set_carry
  (st, 4)

/-- cpu::op_halt (cpu.cpp lines 1226-1230): pushes the halt action. -/
def Cpu.op_halt (st : Cpu) : Cpu × Nat :=
  ({ st with pipeline := st.pipeline ++ [GbAction.halt] }, 4)

/-- cpu::op_stop: calls op_halt. -/
def Cpu.op_stop (st : Cpu) : Cpu × Nat :=
  let (st, _) := st.op_halt
  (st, 4)

/-- cpu::op_di: pushes disable_interrupts. -/
def Cpu.op_di (st : Cpu) : Cpu × Nat :=
  ({ st with pipeline := st.pipeline ++ [GbAction.disable_interrupts] }, 4)

/-- cpu::op_ei: pushes enable_interrupts. -/
def Cpu.op_ei (st : Cpu) : Cpu × Nat :=
  ({ st with pipeline := st.pipeline ++ [GbAction.enable_interrupts] }, 4)

/-- cpu::op_rlc(uint8_t&) on a value (cpu.cpp lines 1252-1266): shift
left, insert the OLD carry flag into bit 0, and move the old bit 7 into
the carry flag — a rotate-through-carry. -/
def Cpu.op_rlc_v (st : Cpu) (reg : Nat) : Cpu × Nat :=
  let msb := reg &&& 0x80 != 0
  let reg := (reg <<< 1) % 256
  let reg := if st.carry then reg ||| 0x01 else reg &&& 0xfe
  let st := st.upd_zero (reg == 0)
  let st := st.reset_sub
  let st := st.reset_half_carry
  let st := st.upd_carry msb
  (st, reg)

/-- cpu::op_rlc(uint8_t&). -/
def Cpu.op_rlc_r (st : Cpu) (r : R8) : Cpu × Nat :=
  let (st, v) := st.op_rlc_v (st.get8 r)
  (st.set8 r v, 4)

/-- cpu::op_rlc(uint16_t). -/
def Cpu.op_rlc_a (st : Cpu) (addr : Nat) : Cpu × Nat :=
  let (st, v) := st.op_rlc_v (st.mem.read addr)
  ({ st with mem := st.mem.write addr v }, 12)

/-- cpu::op_rl(uint8_t&) on a value: plain shift left. -/
def Cpu.op_rl_v (st : Cpu) (reg : Nat) : Cpu × Nat :=
  let msb := reg &&& 0x80 != 0
  let reg := (reg <<< 1) % 256
  let st := st.upd_zero (reg == 0)
  let st := st.reset_sub
  let st := st.reset_half_carry
  let st := st.upd_carry msb
  (st, reg)

/-- cpu::op_rl(uint8_t&). -/
def Cpu.op_rl_r (st : Cpu) (r : R8) : Cpu × Nat :=
  let (st, v) := st.op_rl_v (st.get8 r)
  (st.set8 r v, 4)

/-- cpu::op_rl(uint16_t). -/
def Cpu.op_rl_a (st : Cpu) (addr : Nat) : Cpu × Nat :=
  let (st, v) := st.op_rl_v (st.mem.read addr)
  ({ st with mem := st.mem.write addr v }, 12)

/-- cpu::op_rrc(uint8_t&) on a value (cpu.cpp lines 1297-1311): shift
right, insert the OLD carry flag into bit 7, and move the old bit 0 into
the carry flag. -/
def Cpu.op_rrc_v (st : Cpu) (reg : Nat) : Cpu × Nat :=
  let lsb := reg &&& 0x01 != 0
  let reg := reg >>> 1
  let reg := if st.carry then reg ||| 0x80 else reg &&& 0x7f
  let st := st.upd_zero (reg == 0)
  let st := st.reset_sub
  let st := st.reset_half_carry
  let st := st.upd_carry lsb
  (st, reg)

/-- cpu::op_rrc(uint8_t&). -/
def Cpu.op_rrc_r (st : Cpu) (r : R8) : Cpu × Nat :=
  let (st, v) := st.op_rrc_v (st.get8 r)
  (st.set8 r v, 4)

/-- cpu::op_rrc(uint16_t). -/
def Cpu.op_rrc_a (st : Cpu) (addr : Nat) : Cpu × Nat :=
  let (st, v) := st.op_rrc_v (st.mem.read addr)
  ({ st with mem := st.mem.write addr v }, 12)

/-- cpu::op_rr(uint8_t&) on a value: plain shift right. -/
def Cpu.op_rr_v (st : Cpu) (reg : Nat) : Cpu × Nat :=
  let lsb := reg &&& 0x01 != 0
  let reg := reg >>> 1
  let st := st.upd_zero (reg == 0)
  let st := st.reset_sub
  let st := st.reset_half_carry
  let st := st.upd_carry lsb
  (st, reg)

/-- cpu::op_rr(uint8_t&). -/
def Cpu.op_rr_r (st : Cpu) (r : R8) : Cpu × Nat :=
  let (st, v) := st.op_rr_v (st.get8 r)
  (st.set8 r v, 4)

/-- cpu::op_rr(uint16_t). -/
def Cpu.op_rr_a (st : Cpu) (addr : Nat) : Cpu × Nat :=
  let (st, v) := st.op_rr_v (st.mem.read addr)
  ({ st with mem := st.mem.write addr v }, 12)

/-- cpu::op_sla(uint8_t&) on a value. -/
def Cpu.op_sla_v (st : Cpu) (reg : Nat) : Cpu × Nat :=
  let msb := reg &&& 0x80 != 0
  let reg := ((reg <<< 1) % 256) &&& 0xfe
  let st := st.upd_zero (reg == 0)
  let st := st.reset_sub
  let st := st.reset_half_carry
  let st := st.upd_carry msb
  (st, reg)

/-- cpu::op_sla(uint8_t&). -/
def Cpu.op_sla_r (st : Cpu) (r : R8) : Cpu × Nat :=
  let (st, v) := st.op_sla_v (st.get8 r)
  (st.set8 r v, 4)

/-- cpu::op_sla(uint16_t). -/
def Cpu.op_sla_a (st : Cpu) (addr : Nat) : Cpu × Nat :=
  let (st, v) := st.op_sla_v (st.mem.read addr)
  ({ st with mem := st.mem.write addr v }, 12)

/-- cpu::op_sra(uint8_t&) on a value: the old bit 7 is OR-ed back in. -/
def Cpu.op_sra_v (st : Cpu) (reg : Nat) : Cpu × Nat :=
  let lsb := reg &&& 0x01 != 0
  let msb := reg &&& 0x80
  let reg := (reg >>> 1) ||| msb
  let st := st.upd_zero (reg == 0)
  let st := st.reset_sub
  let st := st.reset_half_carry
  let st := st.upd_carry lsb
  (st, reg)

/-- cpu::op_sra(uint8_t&). -/
def Cpu.op_sra_r (st : Cpu) (r : R8) : Cpu × Nat :=
  let (st, v) := st.op_sra_v (st.get8 r)
  (st.set8 r v, 4)

/-- cpu::op_sra(uint16_t). -/
def Cpu.op_sra_a (st : Cpu) (addr : Nat) : Cpu × Nat :=
  let (st, v) := st.op_sra_v (st.mem.read addr)
  ({ st with mem := st.mem.write addr v }, 12)

/-- cpu::op_srl(uint8_t&) on a value. -/
def Cpu.op_srl_v (st : Cpu) (reg : Nat) : Cpu × Nat :=
  let lsb := reg &&& 0x01 != 0
  let reg := (reg >>> 1) &&& 0x7f
  let st := st.upd_zero (reg == 0)
  let st := st.reset_sub
  let st := st.reset_half_carry
  let st := st.upd_carry lsb
  (st, reg)

/-- cpu::op_srl(uint8_t&). -/
def Cpu.op_srl_r (st : Cpu) (r : R8) : Cpu × Nat :=
  let (st, v) := st.op_srl_v (st.get8 r)
  (st.set8 r v, 4)

/-- cpu::op_srl(uint16_t). -/
def Cpu.op_srl_a (st : Cpu) (addr : Nat) : Cpu × Nat :=
  let (st, v) := st.op_srl_v (st.mem.read addr)
  ({ st with mem := st.mem.write addr v }, 12)

/-- cpu::op_bit(uint8_t&, uint8_t) on a value: flags only. -/
def Cpu.op_bit_core (st : Cpu) (reg n : Nat) : Cpu :=
  let st := st.upd_zero ((reg &&& (1 <<< n)) == 0)
  let st := st.reset_sub
  let st := st.set_half_carry
  -- carry unaffected
  st

/-- cpu::op_bit(uint8_t&, uint8_t). -/
def Cpu.op_bit_r (st : Cpu) (r : R8) (n : Nat) : Cpu × Nat :=
  (st.op_bit_core (st.get8 r) n, 4)

/-- cpu::op_bit(uint16_t, uint8_t): reads, tests, writes the byte back. -/
def Cpu.op_bit_a (st : Cpu) (addr n : Nat) : Cpu × Nat :=
  let val := st.mem.read addr
  let st := st.op_bit_core val n
  ({ st with mem := st.mem.write addr val }, 12)

/-- cpu::op_set(uint8_t&, uint8_t). -/
def Cpu.op_set_r (st : Cpu) (r : R8) (n : Nat) : Cpu × Nat :=
  (st.set8 r (st.get8 r ||| (1 <<< n)), 4)

/-- cpu::op_set(uint16_t, uint8_t) (cpu.cpp lines 1432-1438): the source
calls op_bit on the local value, so no bit is set; the unchanged byte is
written back. -/
def Cpu.op_set_a (st : Cpu) (addr n : Nat) : Cpu × Nat :=
  let val := st.mem.read addr
  let st := st.op_bit_core val n
  ({ st with mem := st.mem.write addr val }, 12)

/-- cpu::op_res(uint8_t&, uint8_t): reg &= ~(1 << n) as 8-bit masking. -/
def Cpu.op_res_r (st : Cpu) (r : R8) (n : Nat) : Cpu × Nat :=
  (st.set8 r (st.get8 r &&& (0xff ^^^ (1 <<< n))), 4)

/-- cpu::op_res(uint16_t, uint8_t) (cpu.cpp lines 1446-1452): likewise
calls op_bit, so no bit is cleared. -/
def Cpu.op_res_a (st : Cpu) (addr n : Nat) : Cpu × Nat :=
  let val := st.mem.read addr
  let st := st.op_bit_core val n
  ({ st with mem := st.mem.write addr val }, 12)

/-- cpu::op_jp(): pc = fetch16(). -/
def Cpu.op_jp_nn (st : Cpu) : Cpu × Nat :=
  let (st, addr) := st.fetch16
  ({ st with pc := addr }, 12)

/-- cpu::op_jp(uint16_t). -/
def Cpu.op_jp_a (st : Cpu) (addr : Nat) : Cpu × Nat :=
  ({ st with pc := addr % 65536 }, 4)

/-- cpu::op_jp(condition): when the condition fails the operand bytes are
not consumed, as in the source. -/
def Cpu.op_jp_cc (st : Cpu) (cond : Cond) : Cpu × Nat :=
  let st :=
    match cond with
    | .NZ => if !st.zero then (st.op_jp_nn).1 else st
    | .Z => if st.zero then (st.op_jp_nn).1 else st
    | .NC => if !st.carry then (st.op_jp_nn).1 else st
    | .C => if st.carry then (st.op_jp_nn).1 else st
  (st, 12)

/-- cpu::op_jr(): pc += int8(fetch()). -/
def Cpu.op_jr_n (st : Cpu) : Cpu × Nat :=
  let (st, v) := st.fetch
  ({ st with pc := (st.pc + (if v < 128 then v else v + 65280)) % 65536 }, 8)

/-- cpu::op_jr(condition). -/
def Cpu.op_jr_cc (st : Cpu) (cond : Cond) : Cpu × Nat :=
  let st :=
    match cond with
    | .NZ => if !st.zero then (st.op_jr_n).1 else st
    | .Z => if st.zero then (st.op_jr_n).1 else st
    | .NC => if !st.carry then (st.op_jr_n).1 else st
    | .C => if st.carry then (st.op_jr_n).1 else st
  (st, 8)

/-- cpu::op_call(): addr = fetch16(); op_push(pc); pc = addr. -/
def Cpu.op_call_nn (st : Cpu) : Cpu × Nat :=
  let (st, addr) := st.fetch16
  let (st, _) := st.op_push st.pc
  ({ st with pc := addr }, 12)

/-- cpu::op_call(condition). -/
def Cpu.op_call_cc (st : Cpu) (cond : Cond) : Cpu × Nat :=
  let st :=
    match cond with
    | .NZ => if !st.zero then (st.op_call_nn).1 else st
    | .Z => if st.zero then (st.op_call_nn).1 else st
    | .NC => if !st.carry then (st.op_call_nn).1 else st
    | .C => if st.carry then (st.op_call_nn).1 else st
  (st, 12)

/-- cpu::op_rst (cpu.cpp lines 1540-1547): op_push(pc); pc =
mem->read(base) — the source jumps to the BYTE READ at base, not to
base. -/
def Cpu.op_rst (st : Cpu) (base : Nat) : Cpu × Nat :=
  let (st, _) := st.op_push st.pc
  ({ st with pc := st.mem.read base }, 32)

/-- cpu::op_ret(): pops into a local and jumps there. -/
def Cpu.op_ret_n (st : Cpu) : Cpu × Nat :=
  let (st, addr) := st.pop16
  ({ st with pc := addr }, 8)

/-- cpu::op_ret(condition). -/
def Cpu.op_ret_cc (st : Cpu) (cond : Cond) : Cpu × Nat :=
  let st :=
    match cond with
    | .NZ => if !st.zero then (st.op_ret_n).1 else st
    | .Z => if st.zero then (st.op_ret_n).1 else st
    | .NC => if !st.carry then (st.op_ret_n).1 else st
    | .C => if st.carry then (st.op_ret_n).1 else st
  (st, 8)

/-- cpu::op_reti: op_ret(); op_ei(). -/
def Cpu.op_reti (st : Cpu) : Cpu × Nat :=
  let (st, _) := st.op_ret_n
  let (st, _) := st.op_ei
  (st, 8)

/-- Wrap a CB-prefixed result: the extra decode fetch costs 4 cycles. -/
def add4 (p : Cpu × Nat) : Cpu × Nat := (p.1, 4 + p.2)

set_option maxHeartbeats 4000000 in
/-- cpu::execute (cpu.cpp lines 167-704): push the execute action, then
dispatch on the opcode.  Opcode 0x10 (STOP) consumes a second byte; 0xcb
escapes into the extended table with 4 extra cycles.  The default arm of
the primary table is op_nop, as in the source; the default arm of the
extended match mirrors the C++ switch falling through to case 0xcc
(unreachable for byte-valued operands). -/
def Cpu.execute (st : Cpu) (op : Nat) : Cpu × Nat :=
  -- we'll always be executing again
  let st := { st with pipeline := st.pipeline ++ [GbAction.execute] }
  match op with
  | 0x00 => st.op_nop
  | 0x01 => st.op_ld16_r .BC
  | 0x02 => st.op_ld_av (st.get16 .BC) (st.get8 .A)
  | 0x03 => st.op_inc16 .BC
  | 0x04 => st.op_inc_r .B
  | 0x05 => st.op_dec_r .B
  | 0x06 => st.op_ld_n_r .B
  | 0x07 => st.op_rlc_r .A
  | 0x08 => st.op_ld16_nn
  | 0x09 => st.op_add16 .HL (st.get16 .BC)
  | 0x0a => st.op_ld_ra .A (st.get16 .BC)
  | 0x0b => st.op_dec16 .BC
  | 0x0c => st.op_inc_r .C
  | 0x0d => st.op_dec_r .C
  | 0x0e => st.op_ld_n_r .C
  | 0x0f => st.op_rrc_r .A
  | 0x10 =>
    let (st, sub2) := st.fetch
    match sub2 with
    | 0x00 => st.op_stop
    | _ => st.op_nop
  | 0x11 => st.op_ld16_r .DE
  | 0x12 => st.op_ld_av (st.get16 .DE) (st.get8 .A)
  | 0x13 => st.op_inc16 .DE
  | 0x14 => st.op_inc_r .D
  | 0x15 => st.op_dec_r .D
  | 0x16 => st.op_ld_n_r .D
  | 0x17 => st.op_rl_r .A
  | 0x18 => st.op_jr_n
  | 0x19 => st.op_add16 .HL (st.get16 .DE)
  | 0x1a => st.op_ld_ra .A (st.get16 .DE)
  | 0x1b => st.op_dec16 .DE
  | 0x1c => st.op_inc_r .E
  | 0x1d => st.op_dec_r .E
  | 0x1e => st.op_ld_n_r .E
  | 0x1f => st.op_rr_r .A
  | 0x20 => st.op_jr_cc .NZ
  | 0x21 => st.op_ld16_r .HL
  | 0x22 => st.op_ldi_HL
  | 0x23 => st.op_inc16 .HL
  | 0x24 => st.op_inc_r .H
  | 0x25 => st.op_dec_r .H
  | 0x26 => st.op_ld_n_r .H
  | 0x27 => st.op_daa
  | 0x28 => st.op_jr_cc .Z
  | 0x29 => st.op_add16 .HL (st.get16 .HL)
  | 0x2a => st.op_ldi_A
  | 0x2b => st.op_dec16 .HL
  | 0x2c => st.op_inc_r .L
  | 0x2d => st.op_dec_r .L
  | 0x2e => st.op_ld_n_r .L
  | 0x2f => st.op_cpl
  | 0x30 => st.op_jr_cc .NC
  | 0x31 => st.op_ld16_r .SP
  | 0x32 => st.op_ldd_HL
  | 0x33 => st.op_inc16 .SP
  | 0x34 => st.op_inc_a (st.get16 .HL)
  | 0x35 => st.op_dec_a (st.get16 .HL)
  | 0x36 => st.op_ld_n_a (st.get16 .HL)
  | 0x37 => st.op_scf
  | 0x38 => st.op_jr_cc .C
  | 0x39 => st.op_add16 .HL st.sp
  | 0x3a => st.op_ldd_A
  | 0x3b => st.op_dec16 .SP
  | 0x3c => st.op_inc_r .A
  | 0x3d => st.op_dec_r .A
  | 0x3e => st.op_ld_n_r .A
  | 0x3f => st.op_ccf
  | 0x40 => st.op_ld_rv .B (st.get8 .B)
  | 0x41 => st.op_ld_rv .B (st.get8 .C)
  | 0x42 => st.op_ld_rv .B (st.get8 .D)
  | 0x43 => st.op_ld_rv .B (st.get8 .E)
  | 0x44 => st.op_ld_rv .B (st.get8 .H)
  | 0x45 => st.op_ld_rv .B (st.get8 .L)
  | 0x46 => st.op_ld_ra .B (st.get16 .HL)
  | 0x47 => st.op_ld_rv .B (st.get8 .A)
  | 0x48 => st.op_ld_rv .C (st.get8 .B)
  | 0x49 => st.op_ld_rv .C (st.get8 .C)
  | 0x4a => st.op_ld_rv .C (st.get8 .D)
  | 0x4b => st.op_ld_rv .C (st.get8 .E)
  | 0x4c => st.op_ld_rv .C (st.get8 .H)
  | 0x4d => st.op_ld_rv .C (st.get8 .L)
  | 0x4e => st.op_ld_ra .C (st.get16 .HL)
  | 0x4f => st.op_ld_rv .C (st.get8 .A)
  | 0x50 => st.op_ld_rv .D (st.get8 .B)
  | 0x51 => st.op_ld_rv .D (st.get8 .C)
  | 0x52 => st.op_ld_rv .D (st.get8 .D)
  | 0x53 => st.op_ld_rv .D (st.get8 .E)
  | 0x54 => st.op_ld_rv .D (st.get8 .H)
  | 0x55 => st.op_ld_rv .D (st.get8 .L)
  | 0x56 => st.op_ld_ra .D (st.get16 .HL)
  | 0x57 => st.op_ld_rv .D (st.get8 .A)
  | 0x58 => st.op_ld_rv .E (st.get8 .B)
  | 0x59 => st.op_ld_rv .E (st.get8 .C)
  | 0x5a => st.op_ld_rv .E (st.get8 .D)
  | 0x5b => st.op_ld_rv .E (st.get8 .E)
  | 0x5c => st.op_ld_rv .E (st.get8 .H)
  | 0x5d => st.op_ld_rv .E (st.get8 .L)
  | 0x5e => st.op_ld_ra .E (st.get16 .HL)
  | 0x5f => st.op_ld_rv .E (st.get8 .A)
  | 0x60 => st.op_ld_rv .H (st.get8 .B)
  | 0x61 => st.op_ld_rv .H (st.get8 .C)
  | 0x62 => st.op_ld_rv .H (st.get8 .D)
  | 0x63 => st.op_ld_rv .H (st.get8 .E)
  | 0x64 => st.op_ld_rv .H (st.get8 .H)
  | 0x65 => st.op_ld_rv .H (st.get8 .L)
  | 0x66 => st.op_ld_ra .H (st.get16 .HL)
  | 0x67 => st.op_ld_rv .H (st.get8 .A)
  | 0x68 => st.op_ld_rv .L (st.get8 .B)
  | 0x69 => st.op_ld_rv .L (st.get8 .C)
  | 0x6a => st.op_ld_rv .L (st.get8 .D)
  | 0x6b => st.op_ld_rv .L (st.get8 .E)
  | 0x6c => st.op_ld_rv .L (st.get8 .H)
  | 0x6d => st.op_ld_rv .L (st.get8 .L)
  | 0x6e => st.op_ld_ra .L (st.get16 .HL)
  | 0x6f => st.op_ld_rv .L (st.get8 .A)
  | 0x70 => st.op_ld_av (st.get16 .HL) (st.get8 .B)
  | 0x71 => st.op_ld_av (st.get16 .HL) (st.get8 .B)
  | 0x72 => st.op_ld_av (st.get16 .HL) (st.get8 .B)
  | 0x73 => st.op_ld_av (st.get16 .HL) (st.get8 .B)
  | 0x74 => st.op_ld_av (st.get16 .HL) (st.get8 .B)
  | 0x75 => st.op_ld_av (st.get16 .HL) (st.get8 .B)
  | 0x76 => st.op_halt
  | 0x77 => st.op_ld_av (st.get16 .HL) (st.get8 .A)
  | 0x78 => st.op_ld_rv .A (st.get8 .B)
  | 0x79 => st.op_ld_rv .A (st.get8 .C)
  | 0x7a => st.op_ld_rv .A (st.get8 .D)
  | 0x7b => st.op_ld_rv .A (st.get8 .E)
  | 0x7c => st.op_ld_rv .A (st.get8 .H)
  | 0x7d => st.op_ld_rv .A (st.get8 .L)
  | 0x7e => st.op_ld_ra .A (st.get16 .HL)
  | 0x7f => st.op_ld_rv .A (st.get8 .A)
  | 0x80 => st.op_add8 .H (st.get8 .B)
  | 0x81 => st.op_add8 .H (st.get8 .C)
  | 0x82 => st.op_add8 .H (st.get8 .D)
  | 0x83 => st.op_add8 .H (st.get8 .E)
  | 0x84 => st.op_add8 .H (st.get8 .H)
  | 0x85 => st.op_add8 .A (st.get8 .L)
  | 0x86 => st.op_add8_a .A (st.get16 .HL)
  | 0x87 => st.op_add8 .A (st.get8 .A)
  | 0x88 => st.op_adc8 .A (st.get8 .B)
  | 0x89 => st.op_adc8 .A (st.get8 .C)
  | 0x8a => st.op_adc8 .A (st.get8 .D)
  | 0x8b => st.op_adc8 .A (st.get8 .E)
  | 0x8c => st.op_adc8 .A (st.get8 .H)
  | 0x8d => st.op_adc8 .A (st.get8 .L)
  | 0x8e => st.op_adc8_a .A (st.get16 .HL)
  | 0x8f => st.op_adc8 .A (st.get8 .A)
  | 0x90 => st.op_sub8 .A (st.get8 .B)
  | 0x91 => st.op_sub8 .A (st.get8 .C)
  | 0x92 => st.op_sub8 .A (st.get8 .D)
  | 0x93 => st.op_sub8 .A (st.get8 .E)
  | 0x94 => st.op_sub8 .A (st.get8 .H)
  | 0x95 => st.op_sub8 .A (st.get8 .L)
  | 0x96 => st.op_sub8_a .A (st.get16 .HL)
  | 0x97 => st.op_sub8 .A (st.get8 .A)
  | 0x98 => st.op_sbc8 .A (st.get8 .B)
  | 0x99 => st.op_sbc8 .A (st.get8 .C)
  | 0x9a => st.op_sbc8 .A (st.get8 .D)
  | 0x9b => st.op_sbc8 .A (st.get8 .E)
  | 0x9c => st.op_sbc8 .A (st.get8 .H)
  | 0x9d => st.op_sbc8 .A (st.get8 .L)
  | 0x9e => st.op_sbc8_a .A (st.get16 .HL)
  | 0x9f => st.op_sbc8 .A (st.get8 .A)
  | 0xa0 => st.op_and8 .A (st.get8 .B)
  | 0xa1 => st.op_and8 .A (st.get8 .C)
  | 0xa2 => st.op_and8 .A (st.get8 .D)
  | 0xa3 => st.op_and8 .A (st.get8 .E)
  | 0xa4 => st.op_and8 .A (st.get8 .H)
  | 0xa5 => st.op_and8 .A (st.get8 .L)
  | 0xa6 => st.op_and8_a .A (st.get16 .HL)
  | 0xa7 => st.op_and8 .A (st.get8 .A)
  | 0xa8 => st.op_xor8 .A (st.get8 .B)
  | 0xa9 => st.op_xor8 .A (st.get8 .C)
  | 0xaa => st.op_xor8 .A (st.get8 .D)
  | 0xab => st.op_xor8 .A (st.get8 .E)
  | 0xac => st.op_xor8 .A (st.get8 .H)
  | 0xad => st.op_xor8 .A (st.get8 .L)
  | 0xae => st.op_xor8_a .A (st.get16 .HL)
  | 0xaf => st.op_xor8 .A (st.get8 .A)
  | 0xb0 => st.op_or8 .A (st.get8 .B)
  | 0xb1 => st.op_or8 .A (st.get8 .C)
  | 0xb2 => st.op_or8 .A (st.get8 .D)
  | 0xb3 => st.op_or8 .A (st.get8 .E)
  | 0xb4 => st.op_or8 .A (st.get8 .H)
  | 0xb5 => st.op_or8 .A (st.get8 .L)
  | 0xb6 => st.op_or8_a .A (st.get16 .HL)
  | 0xb7 => st.op_or8 .A (st.get8 .A)
  | 0xb8 => st.op_cp8 .A (st.get8 .B)
  | 0xb9 => st.op_cp8 .A (st.get8 .C)
  | 0xba => st.op_cp8 .A (st.get8 .D)
  | 0xbb => st.op_cp8 .A (st.get8 .E)
  | 0xbc => st.op_cp8 .A (st.get8 .H)
  | 0xbd => st.op_cp8 .A (st.get8 .L)
  | 0xbe => st.op_cp8_a .A (st.get16 .HL)
  | 0xbf => st.op_cp8 .A (st.get8 .A)
  | 0xc0 => st.op_ret_cc .NZ
  | 0xc1 => st.op_pop .BC
  | 0xc2 => st.op_jp_cc .NZ
  | 0xc3 => st.op_jp_nn
  | 0xc4 => st.op_call_cc .NZ
  | 0xc5 => st.op_push (st.get16 .BC)
  | 0xc6 => st.op_add8_n .A
  | 0xc7 => st.op_rst 0x00
  | 0xc8 => st.op_ret_cc .Z
  | 0xc9 => st.op_ret_n
  | 0xca => st.op_jp_cc .Z
  | 0xcb =>
    let (st, ext_op) := st.fetch
    match ext_op with
    | 0x00 => add4 (st.op_rlc_r .B)
    | 0x01 => add4 (st.op_rlc_r .C)
    | 0x02 => add4 (st.op_rlc_r .D)
    | 0x03 => add4 (st.op_rlc_r .E)
    | 0x04 => add4 (st.op_rlc_r .H)
    | 0x05 => add4 (st.op_rlc_r .L)
    | 0x06 => add4 (st.op_rlc_a (st.get16 .HL))
    | 0x07 => add4 (st.op_rlc_r .A)
    | 0x08 => add4 (st.op_rrc_r .B)
    | 0x09 => add4 (st.op_rrc_r .C)
    | 0x0a => add4 (st.op_rrc_r .D)
    | 0x0b => add4 (st.op_rrc_r .E)
    | 0x0c => add4 (st.op_rrc_r .H)
    | 0x0d => add4 (st.op_rrc_r .L)
    | 0x0e => add4 (st.op_rrc_a (st.get16 .HL))
    | 0x0f => add4 (st.op_rrc_r .A)
    | 0x10 => add4 (st.op_rl_r .B)
    | 0x11 => add4 (st.op_rl_r .C)
    | 0x12 => add4 (st.op_rl_r .D)
    | 0x13 => add4 (st.op_rl_r .E)
    | 0x14 => add4 (st.op_rl_r .H)
    | 0x15 => add4 (st.op_rl_r .L)
    | 0x16 => add4 (st.op_rl_a (st.get16 .HL))
    | 0x17 => add4 (st.op_rl_r .A)
    | 0x18 => add4 (st.op_rr_r .B)
    | 0x19 => add4 (st.op_rr_r .C)
    | 0x1a => add4 (st.op_rr_r .D)
    | 0x1b => add4 (st.op_rr_r .E)
    | 0x1c => add4 (st.op_rr_r .H)
    | 0x1d => add4 (st.op_rr_r .L)
    | 0x1e => add4 (st.op_rr_a (st.get16 .HL))
    | 0x1f => add4 (st.op_rr_r .A)
    | 0x20 => add4 (st.op_sla_r .B)
    | 0x21 => add4 (st.op_sla_r .C)
    | 0x22 => add4 (st.op_sla_r .D)
    | 0x23 => add4 (st.op_sla_r .E)
    | 0x24 => add4 (st.op_sla_r .H)
    | 0x25 => add4 (st.op_sla_r .L)
    | 0x26 => add4 (st.op_sla_a (st.get16 .HL))
    | 0x27 => add4 (st.op_sla_r .A)
    | 0x28 => add4 (st.op_sra_r .B)
    | 0x29 => add4 (st.op_sra_r .C)
    | 0x2a => add4 (st.op_sra_r .D)
    | 0x2b => add4 (st.op_sra_r .E)
    | 0x2c => add4 (st.op_sra_r .H)
    | 0x2d => add4 (st.op_sra_r .L)
    | 0x2e => add4 (st.op_sra_a (st.get16 .HL))
    | 0x2f => add4 (st.op_sra_r .A)
    | 0x30 => add4 (st.op_swap_r .B)
    | 0x31 => add4 (st.op_swap_r .C)
    | 0x32 => add4 (st.op_swap_r .D)
    | 0x33 => add4 (st.op_swap_r .E)
    | 0x34 => add4 (st.op_swap_r .H)
    | 0x35 => add4 (st.op_swap_r .L)
    | 0x36 => add4 (st.op_swap_a (st.get16 .HL))
    | 0x37 => add4 (st.op_swap_r .A)
    | 0x38 => add4 (st.op_srl_r .B)
    | 0x39 => add4 (st.op_srl_r .C)
    | 0x3a => add4 (st.op_srl_r .D)
    | 0x3b => add4 (st.op_srl_r .E)
    | 0x3c => add4 (st.op_srl_r .H)
    | 0x3d => add4 (st.op_srl_r .L)
    | 0x3e => add4 (st.op_srl_a (st.get16 .HL))
    | 0x3f => add4 (st.op_srl_r .A)
    | 0x40 => add4 (st.op_bit_r .B 0)
    | 0x41 => add4 (st.op_bit_r .C 0)
    | 0x42 => add4 (st.op_bit_r .D 0)
    | 0x43 => add4 (st.op_bit_r .E 0)
    | 0x44 => add4 (st.op_bit_r .H 0)
    | 0x45 => add4 (st.op_bit_r .L 0)
    | 0x46 => add4 (st.op_bit_a (st.get16 .HL) 0)
    | 0x47 => add4 (st.op_bit_r .A 0)
    | 0x48 => add4 (st.op_bit_r .B 1)
    | 0x49 => add4 (st.op_bit_r .C 1)
    | 0x4a => add4 (st.op_bit_r .D 1)
    | 0x4b => add4 (st.op_bit_r .E 1)
    | 0x4c => add4 (st.op_bit_r .H 1)
    | 0x4d => add4 (st.op_bit_r .L 1)
    | 0x4e => add4 (st.op_bit_a (st.get16 .HL) 1)
    | 0x4f => add4 (st.op_bit_r .A 1)
    | 0x50 => add4 (st.op_bit_r .B 2)
    | 0x51 => add4 (st.op_bit_r .C 2)
    | 0x52 => add4 (st.op_bit_r .D 2)
    | 0x53 => add4 (st.op_bit_r .E 2)
    | 0x54 => add4 (st.op_bit_r .H 2)
    | 0x55 => add4 (st.op_bit_r .L 2)
    | 0x56 => add4 (st.op_bit_a (st.get16 .HL) 2)
    | 0x57 => add4 (st.op_bit_r .A 2)
    | 0x58 => add4 (st.op_bit_r .B 3)
    | 0x59 => add4 (st.op_bit_r .C 3)
    | 0x5a => add4 (st.op_bit_r .D 3)
    | 0x5b => add4 (st.op_bit_r .E 3)
    | 0x5c => add4 (st.op_bit_r .H 3)
    | 0x5d => add4 (st.op_bit_r .L 3)
    | 0x5e => add4 (st.op_bit_a (st.get16 .HL) 3)
    | 0x5f => add4 (st.op_bit_r .A 3)
    | 0x60 => add4 (st.op_bit_r .B 4)
    | 0x61 => add4 (st.op_bit_r .C 4)
    | 0x62 => add4 (st.op_bit_r .D 4)
    | 0x63 => add4 (st.op_bit_r .E 4)
    | 0x64 => add4 (st.op_bit_r .H 4)
    | 0x65 => add4 (st.op_bit_r .L 4)
    | 0x66 => add4 (st.op_bit_a (st.get16 .HL) 4)
    | 0x67 => add4 (st.op_bit_r .A 4)
    | 0x68 => add4 (st.op_bit_r .B 5)
    | 0x69 => add4 (st.op_bit_r .C 5)
    | 0x6a => add4 (st.op_bit_r .D 5)
    | 0x6b => add4 (st.op_bit_r .E 5)
    | 0x6c => add4 (st.op_bit_r .H 5)
    | 0x6d => add4 (st.op_bit_r .L 5)
    | 0x6e => add4 (st.op_bit_a (st.get16 .HL) 5)
    | 0x6f => add4 (st.op_bit_r .A 5)
    | 0x70 => add4 (st.op_bit_r .B 6)
    | 0x71 => add4 (st.op_bit_r .C 6)
    | 0x72 => add4 (st.op_bit_r .D 6)
    | 0x73 => add4 (st.op_bit_r .E 6)
    | 0x74 => add4 (st.op_bit_r .H 6)
    | 0x75 => add4 (st.op_bit_r .L 6)
    | 0x76 => add4 (st.op_bit_a (st.get16 .HL) 6)
    | 0x77 => add4 (st.op_bit_r .A 6)
    | 0x78 => add4 (st.op_bit_r .B 7)
    | 0x79 => add4 (st.op_bit_r .C 7)
    | 0x7a => add4 (st.op_bit_r .D 7)
    | 0x7b => add4 (st.op_bit_r .E 7)
    | 0x7c => add4 (st.op_bit_r .H 7)
    | 0x7d => add4 (st.op_bit_r .L 7)
    | 0x7e => add4 (st.op_bit_a (st.get16 .HL) 7)
    | 0x7f => add4 (st.op_bit_r .A 7)
    | 0x80 => add4 (st.op_res_r .B 0)
    | 0x81 => add4 (st.op_res_r .C 0)
    | 0x82 => add4 (st.op_res_r .D 0)
    | 0x83 => add4 (st.op_res_r .E 0)
    | 0x84 => add4 (st.op_res_r .H 0)
    | 0x85 => add4 (st.op_res_r .L 0)
    | 0x86 => add4 (st.op_res_a (st.get16 .HL) 0)
    | 0x87 => add4 (st.op_res_r .A 0)
    | 0x88 => add4 (st.op_res_r .B 1)
    | 0x89 => add4 (st.op_res_r .C 1)
    | 0x8a => add4 (st.op_res_r .D 1)
    | 0x8b => add4 (st.op_res_r .E 1)
    | 0x8c => add4 (st.op_res_r .H 1)
    | 0x8d => add4 (st.op_res_r .L 1)
    | 0x8e => add4 (st.op_res_a (st.get16 .HL) 1)
    | 0x8f => add4 (st.op_res_r .A 1)
    | 0x90 => add4 (st.op_res_r .B 2)
    | 0x91 => add4 (st.op_res_r .C 2)
    | 0x92 => add4 (st.op_res_r .D 2)
    | 0x93 => add4 (st.op_res_r .E 2)
    | 0x94 => add4 (st.op_res_r .H 2)
    | 0x95 => add4 (st.op_res_r .L 2)
    | 0x96 => add4 (st.op_res_a (st.get16 .HL) 2)
    | 0x97 => add4 (st.op_res_r .A 2)
    | 0x98 => add4 (st.op_res_r .B 3)
    | 0x99 => add4 (st.op_res_r .C 3)
    | 0x9a => add4 (st.op_res_r .D 3)
    | 0x9b => add4 (st.op_res_r .E 3)
    | 0x9c => add4 (st.op_res_r .H 3)
    | 0x9d => add4 (st.op_res_r .L 3)
    | 0x9e => add4 (st.op_res_a (st.get16 .HL) 3)
    | 0x9f => add4 (st.op_res_r .A 3)
    | 0xa0 => add4 (st.op_res_r .B 4)
    | 0xa1 => add4 (st.op_res_r .C 4)
    | 0xa2 => add4 (st.op_res_r .D 4)
    | 0xa3 => add4 (st.op_res_r .E 4)
    | 0xa4 => add4 (st.op_res_r .H 4)
    | 0xa5 => add4 (st.op_res_r .L 4)
    | 0xa6 => add4 (st.op_res_a (st.get16 .HL) 4)
    | 0xa7 => add4 (st.op_res_r .A 4)
    | 0xa8 => add4 (st.op_res_r .B 5)
    | 0xa9 => add4 (st.op_res_r .C 5)
    | 0xaa => add4 (st.op_res_r .D 5)
    | 0xab => add4 (st.op_res_r .E 5)
    | 0xac => add4 (st.op_res_r .H 5)
    | 0xad => add4 (st.op_res_r .L 5)
    | 0xae => add4 (st.op_res_a (st.get16 .HL) 5)
    | 0xaf => add4 (st.op_res_r .A 5)
    | 0xb0 => add4 (st.op_res_r .B 6)
    | 0xb1 => add4 (st.op_res_r .C 6)
    | 0xb2 => add4 (st.op_res_r .D 6)
    | 0xb3 => add4 (st.op_res_r .E 6)
    | 0xb4 => add4 (st.op_res_r .H 6)
    | 0xb5 => add4 (st.op_res_r .L 6)
    | 0xb6 => add4 (st.op_res_a (st.get16 .HL) 6)
    | 0xb7 => add4 (st.op_res_r .A 6)
    | 0xb8 => add4 (st.op_res_r .B 7)
    | 0xb9 => add4 (st.op_res_r .C 7)
    | 0xba => add4 (st.op_res_r .D 7)
    | 0xbb => add4 (st.op_res_r .E 7)
    | 0xbc => add4 (st.op_res_r .H 7)
    | 0xbd => add4 (st.op_res_r .L 7)
    | 0xbe => add4 (st.op_res_a (st.get16 .HL) 7)
    | 0xbf => add4 (st.op_res_r .A 7)
    | 0xc0 => add4 (st.op_set_r .B 0)
    | 0xc1 => add4 (st.op_set_r .C 0)
    | 0xc2 => add4 (st.op_set_r .D 0)
    | 0xc3 => add4 (st.op_set_r .E 0)
    | 0xc4 => add4 (st.op_set_r .H 0)
    | 0xc5 => add4 (st.op_set_r .L 0)
    | 0xc6 => add4 (st.op_set_a (st.get16 .HL) 0)
    | 0xc7 => add4 (st.op_set_r .A 0)
    | 0xc8 => add4 (st.op_set_r .B 1)
    | 0xc9 => add4 (st.op_set_r .C 1)
    | 0xca => add4 (st.op_set_r .D 1)
    | 0xcb => add4 (st.op_set_r .E 1)
    | 0xcc => add4 (st.op_set_r .H 1)
    | 0xcd => add4 (st.op_set_r .L 1)
    | 0xce => add4 (st.op_set_a (st.get16 .HL) 1)
    | 0xcf => add4 (st.op_set_r .A 1)
    | 0xd0 => add4 (st.op_set_r .B 2)
    | 0xd1 => add4 (st.op_set_r .C 2)
    | 0xd2 => add4 (st.op_set_r .D 2)
    | 0xd3 => add4 (st.op_set_r .E 2)
    | 0xd4 => add4 (st.op_set_r .H 2)
    | 0xd5 => add4 (st.op_set_r .L 2)
    | 0xd6 => add4 (st.op_set_a (st.get16 .HL) 2)
    | 0xd7 => add4 (st.op_set_r .A 2)
    | 0xd8 => add4 (st.op_set_r .B 3)
    | 0xd9 => add4 (st.op_set_r .C 3)
    | 0xda => add4 (st.op_set_r .D 3)
    | 0xdb => add4 (st.op_set_r .E 3)
    | 0xdc => add4 (st.op_set_r .H 3)
    | 0xdd => add4 (st.op_set_r .L 3)
    | 0xde => add4 (st.op_set_a (st.get16 .HL) 3)
    | 0xdf => add4 (st.op_set_r .A 3)
    | 0xe0 => add4 (st.op_set_r .B 4)
    | 0xe1 => add4 (st.op_set_r .C 4)
    | 0xe2 => add4 (st.op_set_r .D 4)
    | 0xe3 => add4 (st.op_set_r .E 4)
    | 0xe4 => add4 (st.op_set_r .H 4)
    | 0xe5 => add4 (st.op_set_r .L 4)
    | 0xe6 => add4 (st.op_set_a (st.get16 .HL) 4)
    | 0xe7 => add4 (st.op_set_r .A 4)
    | 0xe8 => add4 (st.op_set_r .B 5)
    | 0xe9 => add4 (st.op_set_r .C 5)
    | 0xea => add4 (st.op_set_r .D 5)
    | 0xeb => add4 (st.op_set_r .E 5)
    | 0xec => add4 (st.op_set_r .H 5)
    | 0xed => add4 (st.op_set_r .L 5)
    | 0xee => add4 (st.op_set_a (st.get16 .HL) 5)
    | 0xef => add4 (st.op_set_r .A 5)
    | 0xf0 => add4 (st.op_set_r .B 6)
    | 0xf1 => add4 (st.op_set_r .C 6)
    | 0xf2 => add4 (st.op_set_r .D 6)
    | 0xf3 => add4 (st.op_set_r .E 6)
    | 0xf4 => add4 (st.op_set_r .H 6)
    | 0xf5 => add4 (st.op_set_r .L 6)
    | 0xf6 => add4 (st.op_set_a (st.get16 .HL) 6)
    | 0xf7 => add4 (st.op_set_r .A 6)
    | 0xf8 => add4 (st.op_set_r .B 7)
    | 0xf9 => add4 (st.op_set_r .C 7)
    | 0xfa => add4 (st.op_set_r .D 7)
    | 0xfb => add4 (st.op_set_r .E 7)
    | 0xfc => add4 (st.op_set_r .H 7)
    | 0xfd => add4 (st.op_set_r .L 7)
    | 0xfe => add4 (st.op_set_a (st.get16 .HL) 7)
    | 0xff => add4 (st.op_set_r .A 7)
    | _ => st.op_call_cc .Z
  | 0xcc => st.op_call_cc .Z
  | 0xcd => st.op_call_nn
  | 0xce => st.op_adc8_n .A
  | 0xcf => st.op_rst 0x08
  | 0xd0 => st.op_ret_cc .NC
  | 0xd1 => st.op_pop .DE
  | 0xd2 => st.op_jp_cc .NC
  | 0xd3 => st.op_nop
  | 0xd4 => st.op_call_cc .NC
  | 0xd5 => st.op_push (st.get16 .DE)
  | 0xd6 => st.op_sub8_n .A
  | 0xd7 => st.op_rst 0x10
  | 0xd8 => st.op_ret_cc .C
  | 0xd9 => st.op_reti
  | 0xda => st.op_jp_cc .C
  | 0xdb => st.op_nop
  | 0xdc => st.op_call_cc .C
  | 0xdd => st.op_nop
  | 0xde => st.op_sbc8_n .A
  | 0xdf => st.op_rst 0x18
  | 0xe0 => st.op_ldh_n
  | 0xe1 => st.op_pop .HL
  | 0xe2 => st.op_ld_av (0xff00 + st.get8 .C) (st.get8 .A)
  | 0xe3 => st.op_nop
  | 0xe4 => st.op_nop
  | 0xe5 => st.op_push (st.get16 .HL)
  | 0xe6 => st.op_and8_n .A
  | 0xe7 => st.op_rst 0x20
  | 0xe8 => st.op_add_sp
  | 0xe9 => st.op_jp_a (st.get16 .HL)
  | 0xea => st.op_ld_nn_v (st.get8 .A)
  | 0xeb => st.op_nop
  | 0xec => st.op_nop
  | 0xed => st.op_nop
  | 0xee => st.op_xor8_n .A
  | 0xef => st.op_rst 0x28
  | 0xf0 => st.op_ldh_A
  | 0xf1 => st.op_pop .AF
  | 0xf2 => st.op_ld_ra .A (0xff00 + st.get8 .C)
  | 0xf3 => st.op_di
  | 0xf4 => st.op_nop
  | 0xf5 => st.op_push (st.get16 .AF)
  | 0xf6 => st.op_or8_n .A
  | 0xf7 => st.op_rst 0x30
  | 0xf8 => st.op_ld16_HL
  | 0xf9 => st.op_ld16_rv .SP (st.get16 .HL)
  | 0xfa => st.op_ld_n_r .A
  | 0xfb => st.op_ei
  | 0xfc => st.op_nop
  | 0xfd => st.op_nop
  | 0xfe => st.op_cp8_n .A
  | 0xff => st.op_rst 0x38
  | _ => st.op_nop

-- ===== interrupt servicing and the run loop (cpu.cpp lines 26-165) =====

/-- The interrupt bits (enum class interrupt, cpu.hpp lines 17-26). -/
def vblank_bit : Nat := 1
def lcd_stat_bit : Nat := 2
def timer_bit : Nat := 4
def serial_bit : Nat := 8
def joypad_bit : Nat := 16

/-- cpu::queue_interrupt (cpu.cpp lines 71-78): a no-op when IME is
clear; otherwise OR the bit into IF. -/
def Cpu.queue_interrupt (st : Cpu) (i : Nat) : Cpu :=
  if !st.interrupts_enabled then st
  else
    let val := st.mem.read interrupt_flag_addr
    { st with mem := st.mem.write interrupt_flag_addr (val ||| i) }

/-- cpu::process_interrupts (cpu.cpp lines 92-116): runs only when IME is
set; scans IF (only IF — IE is never consulted) in priority order; on a
hit clears IME, calls op_push(pc) and jumps.  The IF bit is not cleared. -/
def Cpu.process_interrupts (st : Cpu) : Cpu :=
  if !st.interrupts_enabled then st
  else
    let requested := st.mem.read interrupt_flag_addr
    let jump_addr :=
      if requested &&& vblank_bit != 0 then vblank_handler
      else if requested &&& lcd_stat_bit != 0 then lcd_stat_handler
      else if requested &&& timer_bit != 0 then timer_handler
      else if requested &&& serial_bit != 0 then serial_handler
      else if requested &&& joypad_bit != 0 then joypad_handler
      else 0
    if jump_addr != 0 then
      let st := { st with interrupts_enabled := false }
      let (st, _) := st.op_push st.pc
      { st with pc := jump_addr }
    else st

/-- cpu::update_lcd (cpu.cpp lines 118-134): when LCDC bit 7 is set,
queue a vblank interrupt (stub). -/
def Cpu.update_lcd (st : Cpu) : Cpu :=
  let enabled := 0x80
  let val := st.mem.read lcd_control_addr
  if val &&& enabled == 0 then st
  else st.queue_interrupt vblank_bit

/-- cpu::update_timers (cpu.cpp lines 136-165): increment DIV once the
cycle counter reaches 256 (= 4194304 / 16384) and reduce the counter; the
TAC read has no further effect in the source. -/
def Cpu.update_timers (st : Cpu) : Cpu :=
  let div_inc_cycles := 4194304 / 16384
  if st.cycles ≥ div_inc_cycles then
    let curr := st.mem.read divider_addr
    let st := { st with mem := st.mem.write divider_addr (curr + 1) }
    { st with cycles := st.cycles % div_inc_cycles }
  else st

/-- One iteration of the while loop in cpu::run (cpu.cpp lines 31-63):
pop the front action, perform it — execute fetches and dispatches one
instruction and accumulates its cycles; halt only decrements PC and
en-queues nothing; disable/enable_interrupts set IME and re-enqueue
execute — then run process_interrupts, update_lcd and update_timers.
An empty pipeline is returned unchanged (the C++ would pop an empty
queue; cpu::run seeds the queue with execute before looping). -/
def Cpu.run_step (st : Cpu) : Cpu :=
  match st.pipeline with
  | [] => st
  | next :: rest =>
    let st := { st with pipeline := rest }
    let st :=
      match next with
      | .execute =>
        let (st, op) := st.fetch
        let (st, cyc) := st.execute op
        { st with cycles := st.cycles + cyc }
      | .halt =>
        -- stay halted until interrupt occurs
        { st with pc := (st.pc + 65535) % 65536 }
      | .disable_interrupts =>
        let st := { st with interrupts_enabled := false }
        { st with pipeline := st.pipeline ++ [GbAction.execute] }
      | .enable_interrupts =>
        let st := { st with interrupts_enabled := true }
        { st with pipeline := st.pipeline ++ [GbAction.execute] }
    ((st.process_interrupts).update_lcd).update_timers

-- ===== cartridge.cpp =====

/-- The fixed reference logo bytes (cartridge.cpp lines 41-45). -/
def logo_reference : List Nat := [
  0xCE, 0xED, 0x66, 0x66, 0xCC, 0x0D, 0x00, 0x0B, 0x03, 0x73, 0x00, 0x83,
  0x00, 0x0C, 0x00, 0x0D, 0x00, 0x08, 0x11, 0x1F, 0x88, 0x89, 0x00, 0x0E,
  0xDC, 0xCC, 0x6E, 0xE6, 0xDD, 0xDD, 0xD9, 0x99, 0xBB, 0xBB, 0x67, 0x63,
  0x6E, 0x0E, 0xEC, 0xCC, 0xDD, 0xDC, 0x99, 0x9F, 0xBB, 0xB9, 0x33, 0x3E]

/-- cartridge::nintendo_logo (cartridge.cpp lines 32-37): a 48-byte
zero-initialised array filled by std::copy from data.begin()+0x104 up to
data.begin()+0x133 — 0x2F = 47 bytes — so the final entry stays 0. -/
def nintendo_logo (data : List Nat) : List Nat :=
  (List.range 0x30).map (fun i => if i < 0x2F then data.getD (0x104 + i) 0 else 0)

/-- cartridge::nintendo_logo_valid (cartridge.cpp lines 39-50):
element-wise comparison of the 48 entries against the reference. -/
def nintendo_logo_valid (data : List Nat) : Bool :=
  nintendo_logo data == logo_reference

/-- cartridge::loaded (cartridge.cpp line 20). -/
def cartridge_loaded (data : List Nat) : Bool :=
  data.length ≥ 0x150

-- ===== concrete machine states used by the claims =====

/-- A CPU over the all-zero bus with the given A and F register bytes;
SP and PC hold their post-boot values. -/
def mkCpu (av fv : Nat) : Cpu :=
  { mem := mem0
    pipeline := []
    running := true
    interrupts_enabled := false
    cycles := 0
    a := av
    f := fv
    b := 0
    c := 0
    d := 0
    e := 0
    h := 0
    l := 0
    sp := 0xFFFE
    pc := 0x0100 }

/-- The state with A register av and flag register fv placed on register r
instead of A (carrier for register-generic lemmas). -/
def mkCpuR (r : R8) (v fv : Nat) : Cpu := (mkCpu 0 fv).set8 r v

/-- Claim C1 scenario: IME set, IE = 0x01, IF = 0x01, PC = 0x0200,
SP = 0xFFFE, everything else zero. -/
def c1_state : Cpu :=
  { mkCpu 0 0 with
    interrupts_enabled := true
    pc := 0x0200
    sp := 0xFFFE
    mem := (mem0.write 0xFF0F 0x01).write 0xFFFF 0x01 }

/-- Same as c1_state but with IE = 0x00: no interrupt is enabled. -/
def c1_state_ie0 : Cpu :=
  { mkCpu 0 0 with
    interrupts_enabled := true
    pc := 0x0200
    sp := 0xFFFE
    mem := mem0.write 0xFF0F 0x01 }

/-- Claim C2 scenario: SP = 0xFF80 (high RAM) holding the byte 0x3F,
about to execute opcode 0xF1 (POP AF). -/
def c2_state : Cpu :=
  { mkCpu 0 0 with sp := 0xFF80, mem := mem0.write 0xFF80 0x3F }

/-- Claim C3 scenario: BC = 0x1234, SP = 0xFFFE, memory zeroed. -/
def c3_state : Cpu := { mkCpu 0 0 with b := 0x12, c := 0x34, sp := 0xFFFE }

/-- Claim C5 scenario: A = 0x0F, B = 0x01, F = 0x00. -/
def c5_state : Cpu := { mkCpu 0x0F 0 with b := 0x01 }

/-- Claim C6 scenario: the pipeline just after the HALT instruction
executed (execute was re-queued first, then halt), with IF = 0 and
IE = 0 so that no interrupt is requested or enabled. -/
def c6_state : Cpu :=
  { mkCpu 0 0 with pipeline := [GbAction.execute, GbAction.halt], pc := 0x0200 }

/-- Claim C8 counterexample state: A = 0x0A, F = 0x00. -/
def c8_cex_state : Cpu := mkCpu 0x0A 0x00

/-- Claim C9 failing cartridge: 0x150 bytes whose 48 bytes at 0x104
equal the reference logo exactly. -/
def c9_cart : List Nat :=
  List.replicate 0x104 0 ++ logo_reference ++ List.replicate 0x1C 0

/-- Claim C10 auxiliary state: the byte 0x01 at address 0xC000 and in A. -/
def c10_mem_state : Cpu := { mkCpu 0x01 0 with mem := mem0.write 0xC000 0x01 }

-- ===== generic bit lemmas for the flag register =====

theorem tb_lor (x m n : Nat) (h : m.testBit n = false) :
    (x ||| m).testBit n = x.testBit n := by
  simp [Nat.testBit_lor, h]

theorem tb_land (x m n : Nat) (h : m.testBit n = true) :
    (x &&& m).testBit n = x.testBit n := by
  simp [Nat.testBit_land, h]

theorem tb_lor_true (x m n : Nat) (h : m.testBit n = true) :
    (x ||| m).testBit n = true := by
  simp [Nat.testBit_lor, h]

theorem tb_land_false (x m n : Nat) (h : m.testBit n = false) :
    (x &&& m).testBit n = false := by
  simp [Nat.testBit_land, h]

theorem andpow_ne (x n : Nat) : (x &&& 2 ^ n != 0) = x.testBit n := by
  rw [Nat.and_two_pow]
  cases hb : x.testBit n <;> simp [hb, Nat.pos_iff_ne_zero, Nat.pow_pos]

theorem carry_eq_testBit (s : Cpu) : s.carry = s.f.testBit 4 := by
  have h : (0x10 : Nat) = 2 ^ 4 := by norm_num
  rw [Cpu.carry, h, andpow_ne]

theorem f_set8 (s : Cpu) (r : R8) (v : Nat) : (s.set8 r v).f = s.f := by
  cases r <;> rfl

theorem get8_set8 (s : Cpu) (r : R8) (v : Nat) : (s.set8 r v).get8 r = v % 256 := by
  cases r <;> rfl

theorem carry_upd_carry (s : Cpu) (b : Bool) : (s.upd_carry b).carry = b := by
  cases b
  · show ((s.f &&& 0xef) &&& 0x10 != 0) = false
    have h : (0x10 : Nat) = 2 ^ 4 := by norm_num
    rw [h, andpow_ne, tb_land_false]
    decide
  · show ((s.f ||| 0x10) &&& 0x10 != 0) = true
    have h : (0x10 : Nat) = 2 ^ 4 := by norm_num
    rw [h, andpow_ne, tb_lor_true]
    decide

theorem carry_upd_zero (s : Cpu) (b : Bool) : (s.upd_zero b).carry = s.carry := by
  rw [carry_eq_testBit, carry_eq_testBit]
  cases b
  · show ((s.f &&& 0x7f).testBit 4) = _
    rw [tb_land]
    decide
  · show ((s.f ||| 0x80).testBit 4) = _
    rw [tb_lor]
    decide

theorem carry_reset_sub (s : Cpu) : (s.reset_sub).carry = s.carry := by
  rw [carry_eq_testBit, carry_eq_testBit]
  show ((s.f &&& 0xbf).testBit 4) = _
  rw [tb_land]
  decide

theorem carry_reset_half_carry (s : Cpu) : (s.reset_half_carry).carry = s.carry := by
  rw [carry_eq_testBit, carry_eq_testBit]
  show ((s.f &&& 0xdf).testBit 4) = _
  rw [tb_land]
  decide

theorem carry_set8 (s : Cpu) (r : R8) (v : Nat) : (s.set8 r v).carry = s.carry := by
  rw [carry_eq_testBit, carry_eq_testBit, f_set8]

/-- Byte-level kernel of the RLC-then-RRC round trip: both rotates go
through the carry flag, so the pair is an involution on value and carry. -/
theorem rlc_rrc_val : ∀ c : Bool, ∀ v < 256,
    ((if (v &&& 128 != 0) = true then
        ((if c = true then v <<< 1 % 256 ||| 1 else v <<< 1 % 256 &&& 254) % 256) >>> 1 ||| 128
      else
        ((if c = true then v <<< 1 % 256 ||| 1 else v <<< 1 % 256 &&& 254) % 256) >>> 1 &&& 127)
       % 256 = v)
    ∧ (((if c = true then v <<< 1 % 256 ||| 1 else v <<< 1 % 256 &&& 254) % 256 &&& 1 != 0)
       = c) := by
  decide

/-- Byte-level kernel of the register SWAP: with the source's operator
precedence the masks reduce to 0xf0 and 0x0f, so the value is unchanged. -/
theorem swap_reg_val : ∀ v < 256,
    ((v &&& (0x0f <<< 4)) ||| (v &&& (0xf0 >>> 4))) % 256 = v := by
  decide

-- ===== claim theorems =====

/-- Claim C1: the claim says interrupt servicing selects the highest-priority
bit pending in IF that is also set in IE, clears IME, pushes PC (two bytes,
little-endian, at the decremented SP), clears the IF bit and jumps to the
vector; from IME=true, IE=0x01, IF=0x01, PC=0x0200, SP=0xFFFE it expects
IF=0x00 and the word 0x0200 at 0xFFFC..0xFFFD.  The code clears IME, jumps
to 0x0040 and leaves SP=0xFFFC, but IF stays 0x01, the bytes at
0xFFFC..0xFFFD stay 0x00 (op_push wrote a single byte — the low byte of PC —
at the un-decremented SP 0xFFFE), and IE is never consulted: with IE=0x00
the dispatch still fires. -/
theorem c1_interrupt_dispatch_code_divergence :
    c1_state.mem.read interrupt_enable_addr = 0x01 ∧
    c1_state.mem.read interrupt_flag_addr = 0x01 ∧
    (c1_state.process_interrupts).interrupts_enabled = false ∧
    (c1_state.process_interrupts).pc = 0x0040 ∧
    (c1_state.process_interrupts).sp = 0xFFFC ∧
    (c1_state.process_interrupts).mem.read interrupt_flag_addr = 0x01 ∧
    (c1_state.process_interrupts).mem.read 0xFFFC = 0x00 ∧
    (c1_state.process_interrupts).mem.read 0xFFFD = 0x00 ∧
    (c1_state.process_interrupts).mem.read 0xFFFE = 0x00 ∧
    c1_state_ie0.mem.read interrupt_enable_addr = 0x00 ∧
    (c1_state_ie0.process_interrupts).pc = 0x0040 ∧
    (c1_state_ie0.process_interrupts).interrupts_enabled = false := by
  decide

/-- Claim C2: the claim says the low nibble of F is 0 after every
instruction, POP AF masking the popped low nibble.  The code's op_pop
assigns the popped word to AF unmasked: executing opcode 0xF1 with the byte
0x3F at SP leaves F = 0x3F, whose low nibble is 0x0F. -/
theorem c2_pop_af_low_nibble_code_divergence :
    c2_state.mem.read c2_state.sp = 0x3F ∧
    (c2_state.execute 0xf1).1.f = 0x3F ∧
    (c2_state.execute 0xf1).1.f &&& 0x0F = 0x0F := by
  decide

/-- Claim C3: the claim says PUSH rr decrements SP by 2 then stores rr
little-endian at the decremented SP, and PUSH then POP restores rr with SP
unchanged.  The code's op_push writes one byte (the low byte of rr) at the
un-decremented SP and then decrements: from BC=0x1234, SP=0xFFFE the byte
0x34 lands at 0xFFFE, 0xFFFC..0xFFFD stay 0x00, and the following POP BC
returns 0x0000, not 0x1234 (SP does return to 0xFFFE). -/
theorem c3_push_pop_code_divergence :
    ((c3_state.op_push (c3_state.get16 .BC)).1.sp = 0xFFFC) ∧
    ((c3_state.op_push (c3_state.get16 .BC)).1.mem.read 0xFFFE = 0x34) ∧
    ((c3_state.op_push (c3_state.get16 .BC)).1.mem.read 0xFFFC = 0x00) ∧
    ((c3_state.op_push (c3_state.get16 .BC)).1.mem.read 0xFFFD = 0x00) ∧
    (((c3_state.op_push (c3_state.get16 .BC)).1.op_pop .BC).1.get16 .BC = 0x0000) ∧
    (((c3_state.op_push (c3_state.get16 .BC)).1.op_pop .BC).1.sp = 0xFFFE) := by
  decide

/-- Claim C4: the claim says write16(a, v) stores the low byte at a and the
high byte at a+1, so write16 then read16 returns v in writable regions.
The code writes both bytes to a: after write16(0xC000, 0x1234) address
0xC000 holds 0x12 (the high byte, which overwrote the low byte), 0xC001
still holds 0x00, and read16(0xC000) returns 0x0012, not 0x1234. -/
theorem c4_write16_code_divergence :
    (mem0.write16 0xC000 0x1234).read 0xC000 = 0x12 ∧
    (mem0.write16 0xC000 0x1234).read 0xC001 = 0x00 ∧
    (mem0.write16 0xC000 0x1234).read16 0xC000 = 0x0012 := by
  decide

/-- Claim C5: the claim says executing opcode 0x80 (ADD A,B) from A=0x0F,
B=0x01, F=0x00 yields A=0x10 and F=0x20 with 4 cycles, half-carry being
((a and 0x0F) + (b and 0x0F)) > 0x0F.  The code's dispatch for 0x80 calls
op_add(H, B), so A stays 0x0F and H becomes 0x01; moreover the half-carry
template masks with 0xFF >> 8 = 0, so F stays 0x00.  Only the cycle count
matches. -/
theorem c5_add_a_b_code_divergence :
    (c5_state.execute 0x80).1.a = 0x0F ∧
    (c5_state.execute 0x80).1.h = 0x01 ∧
    (c5_state.execute 0x80).1.f = 0x00 ∧
    (c5_state.execute 0x80).2 = 4 := by
  decide

/-- Claim C6: the claim says the CPU stays halted — the halt action is
re-enqueued every turn — until an interrupt is both requested and enabled,
fetching no instruction meanwhile.  In the code the halt arm of the run loop
only decrements PC and enqueues nothing, and never reads IF or IE.  From the
post-HALT pipeline (execute, halt) with IF=0 and IE=0, the first turn pops
execute and fetches and runs the instruction at PC (PC advances, cycles
accrue), and the second turn pops halt and leaves the pipeline without any
halt action. -/
theorem c6_halt_code_divergence :
    c6_state.mem.read interrupt_flag_addr = 0 ∧
    c6_state.mem.read interrupt_enable_addr = 0 ∧
    (c6_state.run_step).pc = 0x0201 ∧
    (c6_state.run_step).cycles = 4 ∧
    (c6_state.run_step).pipeline = [GbAction.halt, GbAction.execute] ∧
    ((c6_state.run_step).run_step).pipeline = [GbAction.execute] ∧
    ((c6_state.run_step).run_step).pc = 0x0200 := by
  decide

/-- Claim C7: for every state, every operand register and every initial
flag state, executing RLC on the register and then RRC on the same register
restores both the register value and the carry flag.  (Both rotates are
implemented as rotate-through-carry, which still round-trips.) -/
theorem c7_rlc_rrc_round_trip (st : Cpu) (r : R8) (hv : st.get8 r < 256) :
    (((st.op_rlc_r r).1.op_rrc_r r).1.get8 r = st.get8 r) ∧
    (((st.op_rlc_r r).1.op_rrc_r r).1.carry = st.carry) := by
  simp only [Cpu.op_rlc_r, Cpu.op_rlc_v, Cpu.op_rrc_r, Cpu.op_rrc_v]
  simp only [get8_set8, carry_set8, carry_upd_carry, carry_reset_half_carry,
    carry_reset_sub, carry_upd_zero]
  exact rlc_rrc_val st.carry (st.get8 r) hv

/-- Claim C7 witness: the round trip at register A with A=0xA5 and the
carry flag initially set. -/
theorem c7_rlc_rrc_round_trip_witness :
    ((((mkCpu 0xA5 0x10).op_rlc_r .A).1.op_rrc_r .A).1.get8 .A = (mkCpu 0xA5 0x10).get8 .A) ∧
    ((((mkCpu 0xA5 0x10).op_rlc_r .A).1.op_rrc_r .A).1.carry = (mkCpu 0xA5 0x10).carry) :=
  c7_rlc_rrc_round_trip (mkCpu 0xA5 0x10) .A (by decide)

/-- Claim C8 counterexample: 0x0A lies in 0x00..0x99 and H, C, N are
clear, yet ADD A,0 followed by DAA turns A=0x0A into 0x10, so the claim
as stated fails at A=0x0A. -/
theorem c8_daa_counterexample :
    c8_cex_state.a = 0x0A ∧ c8_cex_state.f = 0 ∧
    ((c8_cex_state.op_add8 .A 0).1.op_daa).1.a = 0x10 ∧ (0x10 : Nat) ≠ 0x0A := by
  decide

/-- Claim C8 as amended: for every A in 0x00..0x99 whose LOW NIBBLE is at
most 9 and every flag byte with H, C and N clear, ADD A,0 followed by DAA
leaves A unchanged and sets Z exactly when A = 0. -/
theorem c8_daa_amended :
    ∀ av : Fin 256, av.val ≤ 0x99 → av.val &&& 0x0f ≤ 9 →
      ∀ fv : Fin 256, fv.val &&& 0x70 = 0 →
        ((((mkCpu av.val fv.val).op_add8 .A 0).1.op_daa).1.a = av.val ∧
         (((mkCpu av.val fv.val).op_add8 .A 0).1.op_daa).1.zero = decide (av.val = 0)) := by
  decide

/-- Claim C8 witness: the amended property at A=0x45 with Z and the low
nibble of F set arbitrarily (F=0x81). -/
theorem c8_daa_amended_witness :
    (((mkCpu 0x45 0x81).op_add8 .A 0).1.op_daa).1.a = 0x45 ∧
    (((mkCpu 0x45 0x81).op_add8 .A 0).1.op_daa).1.zero = decide ((0x45 : Nat) = 0) :=
  c8_daa_amended ⟨0x45, by norm_num⟩ (by norm_num) (by decide) ⟨0x81, by norm_num⟩ (by decide)

/-- Claim C9: the claim says the validity check compares the 48 bytes at
0x104 against the reference and returns true when they match.  The code
copies only 47 bytes (std::copy stops at 0x133), leaving the 48th entry 0,
which never equals the reference byte 0x3E: a loaded cartridge whose
0x104..0x133 bytes equal the reference still fails the check. -/
theorem c9_logo_check_code_divergence :
    cartridge_loaded c9_cart = true ∧
    (c9_cart.drop 0x104).take 48 = logo_reference ∧
    nintendo_logo_valid c9_cart = false := by
  decide

/-- Claim C10: the CB-prefixed SWAP on a register is the identity on the
register value (the unparenthesised masks cancel the shifts), while SWAP
on (HL) writes back the byte with its nibbles exchanged; on the operand
byte 0x01 the two forms produce 0x01 and 0x10 respectively. -/
theorem c10_swap_register_identity :
    (∀ (st : Cpu) (r : R8), st.get8 r < 256 → (st.op_swap_r r).1.get8 r = st.get8 r) ∧
    (∀ (st : Cpu) (addr : Nat),
      (st.op_swap_a addr).1.mem =
        st.mem.write addr
          (((st.mem.read addr &&& 0x0f) <<< 4) ||| ((st.mem.read addr &&& 0xf0) >>> 4))) ∧
    (((mkCpu 0x01 0).op_swap_r .A).1.a = 0x01 ∧
     ((c10_mem_state.op_swap_a 0xC000)).1.mem.read 0xC000 = 0x10 ∧
     (0x01 : Nat) ≠ 0x10) := by
  refine ⟨?_, ?_, by decide, by decide, by decide⟩
  · intro st r hv
    cases r
    case A => exact swap_reg_val st.a hv
    case B => exact swap_reg_val st.b hv
    case C => exact swap_reg_val st.c hv
    case D => exact swap_reg_val st.d hv
    case E => exact swap_reg_val st.e hv
    case H => exact swap_reg_val st.h hv
    case L => exact swap_reg_val st.l hv
  · intro st addr
    rfl

/-- Claim C10 witness: the register form at B=0x5C and the identity of the
memory form at the stored byte 0x01. -/
theorem c10_swap_register_identity_witness :
    ((mkCpuR .B 0x5C 0).op_swap_r .B).1.get8 .B = (mkCpuR .B 0x5C 0).get8 .B :=
  c10_swap_register_identity.1 (mkCpuR .B 0x5C 0) .B (by decide)
